import Mathlib

/-!
Verification of the movie recommendation engine
(`src/services/movie_recommendation_engine.py`, `src/services/recommendation_service.py`,
`src/models/Movies.py`).

Modelling conventions:
* Python `float` arithmetic is modelled exactly over `ℚ`; all scores and weights are
  rationals.
* Python strings are Lean `String`s, but every string manipulation is carried out on
  `String.data : List Char` with explicit character-level helpers (ASCII case folding,
  ASCII digits), so that concrete runs reduce in the kernel.
* JSON-ish payloads (the raw TMDB dictionaries) are the inductive `Value`; a Python
  `dict` is an insertion-ordered association list with unique keys (`Dict`), updates
  keep the position of an existing key and append a new one, as CPython dicts do.
* Python exceptions are `Except String`; a `try/except` block is a `match` on that.
* Effectful engine methods are state-passing over `EngineState`, which carries the
  `api_calls_made` counter of the source plus an instrumentation trace of the catalog
  requests issued (appended at the moment the client is called, before the call can
  fail, matching the order of the Python statements).
* The TMDB client (an external collaborator) is a record of arbitrary functions; a
  method returning `.error` models a raised exception, `.ok none` models a falsy
  response or one without the expected key.
-/

namespace MovieRec

/-- JSON-ish values of raw TMDB payloads.  `genreObj` / `keywordObj` embed the
pydantic `Genre` / `Keyword` objects that `movie_from_tmdb_response` writes back
into the working dictionary before constructing the `Movie`. -/
inductive Value where
  | int (n : Int)
  | float (q : ℚ)
  | str (s : String)
  | bool (b : Bool)
  | null
  | list (xs : List Value)
  | dict (entries : List (String × Value))
  | genreObjs (gs : List (Int × String))
  | keywordObjs (ks : List (Int × String))

/-- A Python dict with string keys: insertion-ordered association list, unique keys. -/
abbrev Dict := List (String × Value)

/-- Python `d.get(k)` (`None`, i.e. `none`, when the key is absent). -/
def dictGet? (d : Dict) (k : String) : Option Value :=
  (d.find? (fun e => e.1 = k)).map (·.2)

/-- Python `k in d`. -/
def dictContains (d : Dict) (k : String) : Bool :=
  (dictGet? d k).isSome

/-- Python `d.get(k, v)`. -/
def dictGetD (d : Dict) (k : String) (v : Value) : Value :=
  (dictGet? d k).getD v

/-- Python `d.pop(k, None)`: the dict without the key. -/
def dictPop (d : Dict) (k : String) : Dict :=
  d.filter (fun e => e.1 ≠ k)

/-- Python `d[k] = v`: overwrite in place when the key exists, append otherwise. -/
def dictSet (d : Dict) (k : String) (v : Value) : Dict :=
  if dictContains d k then d.map (fun e => if e.1 = k then (k, v) else e)
  else d ++ [(k, v)]

/-- Python `v is None`. -/
def Value.isNull : Value → Bool
  | .null => true
  | _ => false

/-- Python truthiness of a JSON-ish value (only the cases the code exercises). -/
def valueTruthy : Value → Bool
  | .int n => n ≠ 0
  | .float q => q ≠ 0
  | .str s => s ≠ ""
  | .bool b => b
  | .null => false
  | .list xs => !xs.isEmpty
  | .dict d => !d.isEmpty
  | .genreObjs gs => !gs.isEmpty
  | .keywordObjs ks => !ks.isEmpty

/-! ### Character-level string helpers (ASCII model of the CPython behaviour) -/

/-- ASCII decimal digit. -/
def isDigitChar (c : Char) : Bool := decide ('0' ≤ c ∧ c ≤ '9')

/-- Value of an ASCII digit. -/
def digitVal (c : Char) : Nat := c.toNat - '0'.toNat

/-- Python whitespace (the ASCII part), for `str.strip()`. -/
def isSpaceChar (c : Char) : Bool :=
  c = ' ' ∨ c = '\t' ∨ c = '\n' ∨ c = '\r' ∨ c = '\x0b' ∨ c = '\x0c'

/-- Characters of `str.strip()`. -/
def trimChars (cs : List Char) : List Char :=
  ((cs.dropWhile isSpaceChar).reverse.dropWhile isSpaceChar).reverse

/-- ASCII lower-casing of one character (`str.lower()` on the names the code meets). -/
def lowerChar (c : Char) : Char :=
  if 'A' ≤ c ∧ c ≤ 'Z' then Char.ofNat (c.toNat + 32) else c

/-- Python `s.lower()` (ASCII model). -/
def pyLower (s : String) : String := ⟨s.data.map lowerChar⟩

/-- Python `s.strip()` (ASCII whitespace model). -/
def pyStrip (s : String) : String := ⟨trimChars s.data⟩

/-- Numeric value of a non-empty all-digit run. -/
def digitsVal? (cs : List Char) : Option Nat :=
  if cs = [] ∨ ¬ cs.all isDigitChar then none
  else some (cs.foldl (fun acc c => acc * 10 + digitVal c) 0)

/-- Python `int(s)` on a string: optional surrounding whitespace, optional sign,
then decimal digits; `none` models the `ValueError`. -/
def pyInt? (s : String) : Option Int :=
  let cs := trimChars s.data
  match cs with
  | '+' :: rest => (digitsVal? rest).map (fun n => (n : Int))
  | '-' :: rest => (digitsVal? rest).map (fun n => -(n : Int))
  | _ => (digitsVal? cs).map (fun n => (n : Int))

/-- Splitting on `'-'`, as Python `s.split("-")` (always at least one part). -/
def splitDashAux (cur : List Char) : List Char → List (List Char)
  | [] => [cur.reverse]
  | c :: rest =>
      if c = '-' then cur.reverse :: splitDashAux [] rest
      else splitDashAux (c :: cur) rest

/-- Python `s.split("-")` over the characters. -/
def splitDash (cs : List Char) : List (List Char) := splitDashAux [] cs

/-! ### The pydantic data model (`src/models/Movies.py`) -/

/-- Genre model (`Genre`): id and name. -/
structure Genre where
  id : Int
  name : String
  deriving DecidableEq, Repr

/-- Keyword model (`Keyword`): id and name. -/
structure Keyword where
  id : Int
  name : String
  deriving DecidableEq, Repr

/-- The `Movie` pydantic model.  The fields are those of `src/models/Movies.py`;
`director`, `collection_id` and `collection_name` are fields of the richer model
revision the engine reads (`candidate.director`, `target_movie.collection_id`, …)
whose definition is not in the repository snapshot — modelled from the spec:
"director (optional string…), collection identity/name (optional)". -/
structure Movie where
  id : Int
  title : String
  overview : Option String := none
  release_date : Option String := none
  vote_count : Int := 0
  vote_average : ℚ := 0
  popularity : ℚ := 0
  poster_path : Option String := none
  backdrop_path : Option String := none
  adult : Bool := false
  original_language : Option String := none
  original_title : Option String := none
  video : Bool := false
  genre_ids : Option (List Int) := none
  genres : Option (List Genre) := none
  keywords : Option (List Keyword) := none
  runtime : Option Int := none
  status : Option String := none
  tagline : Option String := none
  budget : Option Int := none
  revenue : Option Int := none
  homepage : Option String := none
  imdb_id : Option String := none
  production_companies : Option (List Value) := none
  production_countries : Option (List Value) := none
  spoken_languages : Option (List Value) := none
  director : Option String := none
  collection_id : Option Int := none
  collection_name : Option String := none

/-- The `release_year` property: `int(self.release_date.split("-")[0])`, `None`
on a falsy date or a `ValueError`/`IndexError`. -/
def Movie.release_year (m : Movie) : Option Int :=
  match m.release_date with
  | none => none
  | some s =>
      if s = "" then none
      else pyInt? ⟨((splitDash s.data).headD [])⟩

/-- The `genre_names` property. -/
def Movie.genre_names (m : Movie) : List String :=
  match m.genres with
  | some gs => gs.map (·.name)
  | none => []

/-- The `keyword_names` property. -/
def Movie.keyword_names (m : Movie) : List String :=
  match m.keywords with
  | some ks => ks.map (·.name)
  | none => []

/-- Modelled from the spec: the `production_company_ids` property of the richer
`Movie` revision is not in the repository snapshot; per the spec, production
companies are "a list of (id, name) pairs … uniqueness keyed by id", so the
property collects the truthy integer ids of the dict entries. -/
def Movie.production_company_ids (m : Movie) : List Int :=
  (m.production_companies.getD []).filterMap fun v =>
    match v with
    | .dict d =>
        match dictGet? d "id" with
        | some (.int n) => if n ≠ 0 then some n else none
        | _ => none
    | _ => none

/-- Python truthiness of an `Optional[List]` (`None` and `[]` are falsy). -/
def optListTruthy {α : Type} : Option (List α) → Bool
  | none => false
  | some l => !l.isEmpty

/-- Python truthiness of an `Optional[int]` (`None` and `0` are falsy). -/
def optIntTruthy : Option Int → Bool
  | none => false
  | some n => n ≠ 0

/-- Python truthiness of an `Optional[str]` (`None` and `""` are falsy). -/
def optStrTruthy : Option String → Bool
  | none => false
  | some s => s ≠ ""

/-! ### The release-date validator (`validate_release_date`, `Movies.py` 149–179)

`datetime.strptime` is modelled after CPython's `_strptime`: `%Y` is exactly four
digits, `%m` matches `1[0-2]|0[1-9]|[1-9]`, `%d` matches `3[01]|[12]\d|0[1-9]|[1-9]`,
the whole string must be consumed, and the resulting `datetime` must be a real
calendar date with year ≥ 1 (so `"0000"` or `"2020-02-31"` raise `ValueError`). -/

/-- Gregorian leap year. -/
def isLeapYear (y : Nat) : Bool := y % 4 = 0 ∧ (y % 100 ≠ 0 ∨ y % 400 = 0)

/-- Length of a month. -/
def daysInMonth (y m : Nat) : Nat :=
  if m = 2 then (if isLeapYear y then 29 else 28)
  else if m = 4 ∨ m = 6 ∨ m = 9 ∨ m = 11 then 30
  else 31

/-- The `%m` component of CPython `_strptime` (`1[0-2]|0[1-9]|[1-9]`), consumed
exactly. -/
def monthVal? : List Char → Option Nat
  | [c] => if '1' ≤ c ∧ c ≤ '9' then some (digitVal c) else none
  | [c1, c2] =>
      if c1 = '0' then (if '1' ≤ c2 ∧ c2 ≤ '9' then some (digitVal c2) else none)
      else if c1 = '1' then (if '0' ≤ c2 ∧ c2 ≤ '2' then some (10 + digitVal c2) else none)
      else none
  | _ => none

/-- The `%d` component of CPython `_strptime` (`3[01]|[12]\d|0[1-9]|[1-9]`),
consumed exactly. -/
def dayVal? : List Char → Option Nat
  | [c] => if '1' ≤ c ∧ c ≤ '9' then some (digitVal c) else none
  | [c1, c2] =>
      if c1 = '0' then (if '1' ≤ c2 ∧ c2 ≤ '9' then some (digitVal c2) else none)
      else if c1 = '1' ∨ c1 = '2' then
        (if isDigitChar c2 then some (digitVal c1 * 10 + digitVal c2) else none)
      else if c1 = '3' then (if c2 = '0' ∨ c2 = '1' then some (30 + digitVal c2) else none)
      else none
  | _ => none

/-- The `%Y` component of CPython `_strptime`: exactly four digits. -/
def yearVal? (cs : List Char) : Option Nat :=
  if cs.length = 4 ∧ cs.all isDigitChar then digitsVal? cs else none

/-- `datetime.strptime(s, "%Y-%m-%d")` succeeds. -/
def strptimeYmd (cs : List Char) : Bool :=
  match splitDash cs with
  | [ys, ms, ds] =>
      match yearVal? ys, monthVal? ms, dayVal? ds with
      | some y, some m, some d => 1 ≤ y ∧ d ≤ daysInMonth y m
      | _, _, _ => false
  | _ => false

/-- `datetime.strptime(s, "%Y-%m")` succeeds. -/
def strptimeYm (cs : List Char) : Bool :=
  match splitDash cs with
  | [ys, ms] =>
      match yearVal? ys, monthVal? ms with
      | some y, some _ => 1 ≤ y
      | _, _ => false
  | _ => false

/-- `datetime.strptime(s, "%Y")` succeeds. -/
def strptimeY (cs : List Char) : Bool :=
  match yearVal? cs with
  | some y => 1 ≤ y
  | none => false

/-- The `release_date` field validator (`Movies.py` 149–179): try `%Y-%m-%d`;
on failure try `%Y-%m` when the length is 7, `%Y` when the length is 4, and
raise otherwise.  `.error` models the raised `ValueError`. -/
def validate_release_date (v : Option String) : Except String (Option String) :=
  match v with
  | none => .ok none
  | some s =>
      if s = "" then .ok none
      else if strptimeYmd s.data then .ok (some s)
      else if s.length = 7 then
        (if strptimeYm s.data then .ok (some s)
         else .error "time data does not match format %Y-%m")
      else if s.length = 4 then
        (if strptimeY s.data then .ok (some s)
         else .error "time data does not match format %Y")
      else .error "Invalid date format. Expected YYYY-MM-DD, YYYY-MM, or YYYY"

/-- The `poster_path`/`backdrop_path` validator (`Movies.py` 181–198). -/
def validate_image_path (v : Option String) : Option String :=
  match v with
  | none => none
  | some s =>
      if s = "" then none
      else if s.data.headD ' ' = '/' then some s
      else some ("/" ++ s)

/-! ### Constructing a `Movie` from a dict (`Movie(**movie_data)`)

Pydantic raises a `ValidationError` (a `ValueError` subclass) on a missing or
invalid field and ignores extra keys; numeric coercion is modelled only as
"an `int` is accepted where a `float` is declared". -/

/-- An optional string field: absent or `None` gives `none`. -/
def optStrField (d : Dict) (k : String) : Except String (Option String) :=
  match dictGet? d k with
  | none => .ok none
  | some .null => .ok none
  | some (.str s) => .ok (some s)
  | some _ => .error (k ++ ": str expected")

/-- An `int` field with a default, constrained to `lo ≤ n`. -/
def intFieldD (d : Dict) (k : String) (dflt : Int) (lo : Int) : Except String Int :=
  match dictGet? d k with
  | none => .ok dflt
  | some (.int n) => if lo ≤ n then .ok n else .error (k ++ ": out of range")
  | some _ => .error (k ++ ": int expected")

/-- An optional `int` field constrained to `0 ≤ n`. -/
def optIntField (d : Dict) (k : String) : Except String (Option Int) :=
  match dictGet? d k with
  | none => .ok none
  | some .null => .ok none
  | some (.int n) => if 0 ≤ n then .ok (some n) else .error (k ++ ": out of range")
  | some _ => .error (k ++ ": int expected")

/-- A `float` field with a default, constrained to `lo ≤ q ≤ hi` (an `int` value
is accepted, as in Python). -/
def floatFieldD (d : Dict) (k : String) (dflt : ℚ) (lo hi : ℚ) : Except String ℚ :=
  match dictGet? d k with
  | none => .ok dflt
  | some (.float q) => if lo ≤ q ∧ q ≤ hi then .ok q else .error (k ++ ": out of range")
  | some (.int n) =>
      if lo ≤ (n : ℚ) ∧ (n : ℚ) ≤ hi then .ok (n : ℚ) else .error (k ++ ": out of range")
  | some _ => .error (k ++ ": float expected")

/-- A `bool` field with a default. -/
def boolFieldD (d : Dict) (k : String) (dflt : Bool) : Except String Bool :=
  match dictGet? d k with
  | none => .ok dflt
  | some (.bool b) => .ok b
  | some _ => .error (k ++ ": bool expected")

/-- An optional `List[int]` field. -/
def optIntListField (d : Dict) (k : String) : Except String (Option (List Int)) :=
  match dictGet? d k with
  | none => .ok none
  | some .null => .ok none
  | some (.list xs) =>
      (xs.mapM fun v =>
        match v with
        | Value.int n => Except.ok n
        | _ => Except.error (k ++ ": int expected")).map some
  | some _ => .error (k ++ ": list expected")

/-- An optional `List[Dict[str, Any]]` field: every element must be a dict. -/
def optDictListField (d : Dict) (k : String) : Except String (Option (List Value)) :=
  match dictGet? d k with
  | none => .ok none
  | some .null => .ok none
  | some (.list xs) =>
      if xs.all (fun v => match v with | Value.dict _ => true | _ => false)
      then .ok (some xs)
      else .error (k ++ ": dict expected")
  | some _ => .error (k ++ ": list expected")

/-- A single genre value as pydantic coerces it into `Genre`: either an already
constructed object or a dict with integer `id` and string `name`. -/
def coerceGenre (v : Value) : Except String Genre :=
  match v with
  | .dict d =>
      match dictGet? d "id", dictGet? d "name" with
      | some (.int n), some (.str s) => .ok ⟨n, s⟩
      | _, _ => .error "genres: invalid Genre"
  | _ => .error "genres: invalid Genre"

/-- The `genres` field: `None`, a list of `Genre` objects (as written back by
`movie_from_tmdb_response`) or a list of coercible dicts. -/
def genresField (d : Dict) : Except String (Option (List Genre)) :=
  match dictGet? d "genres" with
  | none => .ok none
  | some .null => .ok none
  | some (.genreObjs gs) => .ok (some (gs.map fun p => ⟨p.1, p.2⟩))
  | some (.list xs) => (xs.mapM coerceGenre).map some
  | some _ => .error "genres: list expected"

/-- The `keywords` field, symmetric to `genresField`. -/
def keywordsField (d : Dict) : Except String (Option (List Keyword)) :=
  match dictGet? d "keywords" with
  | none => .ok none
  | some .null => .ok none
  | some (.keywordObjs ks) => .ok (some (ks.map fun p => ⟨p.1, p.2⟩))
  | some (.list xs) =>
      (xs.mapM fun v =>
        match v with
        | Value.dict kd =>
            match dictGet? kd "id", dictGet? kd "name" with
            | some (Value.int n), some (Value.str s) => Except.ok (⟨n, s⟩ : Keyword)
            | _, _ => Except.error "keywords: invalid Keyword"
        | _ => Except.error "keywords: invalid Keyword").map some
  | some _ => .error "keywords: list expected"

/-- Modelled from the spec: the richer `Movie` revision also reads the director
name and the `belongs_to_collection` franchise grouping ("director (optional
string, the crew member whose job equals Director)", "collection identity/name
(optional)"); the shallow revision in `src/` lacks these fields. -/
def collectionField (d : Dict) : Option Int × Option String :=
  match dictGet? d "belongs_to_collection" with
  | some (.dict cd) =>
      ( match dictGet? cd "id" with
        | some (.int n) => some n
        | _ => none,
        match dictGet? cd "name" with
        | some (.str s) => some s
        | _ => none )
  | _ => (none, none)

/-- `Movie(**movie_data)`: pydantic validation of every field of the model
(`Movies.py` 108–291), including the `release_date` and image-path validators. -/
def Movie.fromDict (d : Dict) : Except String Movie := do
  let id ← match dictGet? d "id" with
    | some (.int n) => if 0 < n then Except.ok n else Except.error "id: must be > 0"
    | some _ => Except.error "id: int expected"
    | none => Except.error "id: field required"
  let title ← match dictGet? d "title" with
    | some (.str s) => if s ≠ "" then Except.ok s else Except.error "title: min length 1"
    | some _ => Except.error "title: str expected"
    | none => Except.error "title: field required"
  let overview ← optStrField d "overview"
  let release_date ← validate_release_date (← optStrField d "release_date")
  let vote_count ← intFieldD d "vote_count" 0 0
  let vote_average ← floatFieldD d "vote_average" 0 0 10
  let popularity ← floatFieldD d "popularity" 0 0 ((10:ℚ)^100)
  let poster_path := validate_image_path (← optStrField d "poster_path")
  let backdrop_path := validate_image_path (← optStrField d "backdrop_path")
  let adult ← boolFieldD d "adult" false
  let original_language ← optStrField d "original_language"
  let original_title ← optStrField d "original_title"
  let video ← boolFieldD d "video" false
  let genre_ids ← optIntListField d "genre_ids"
  let genres ← genresField d
  let keywords ← keywordsField d
  let runtime ← optIntField d "runtime"
  let status ← optStrField d "status"
  let tagline ← optStrField d "tagline"
  let budget ← optIntField d "budget"
  let revenue ← optIntField d "revenue"
  let homepage ← optStrField d "homepage"
  let imdb_id ← optStrField d "imdb_id"
  let production_companies ← optDictListField d "production_companies"
  let production_countries ← optDictListField d "production_countries"
  let spoken_languages ← optDictListField d "spoken_languages"
  let director ← optStrField d "director"
  let collection := collectionField d
  return { id, title, overview, release_date, vote_count, vote_average, popularity,
           poster_path, backdrop_path, adult, original_language, original_title, video,
           genre_ids, genres, keywords, runtime, status, tagline, budget, revenue,
           homepage, imdb_id, production_companies, production_countries,
           spoken_languages, director,
           collection_id := collection.1, collection_name := collection.2 }

/-! ### `movie_from_tmdb_response` (`Movies.py` 325–392)

The function copies the caller's dict (`movie_data = dict(data)`), reshapes the
`keywords` and `genres` entries of the copy, and builds the `Movie` from the copy.
`movie_from_tmdb_response_run` returns, beside the result, the final contents of
the caller's dict and of the internal copy, so that the frame behaviour (which
dict the statements write to) is part of the embedding. -/

/-- The keyword-payload reshaping (`Movies.py` 352–371): a dict from the
`/movie/id/keywords` endpoint (nested under a `keywords` key) or a bare list;
entries that are not dicts with both `id` and `name` are skipped, and a present
entry with a non-int id or non-str name raises a `ValidationError`. -/
def parseKeywordsPayload (keywords_data : Value) : Except String (Option (List Keyword)) :=
  match keywords_data with
  | .dict kd =>
      if dictContains kd "keywords" then
        match dictGetD kd "keywords" .null with
        | .list keywords_list =>
            (keywords_list.filterMap (fun kw =>
              match kw with
              | Value.dict e =>
                  if dictContains e "id" ∧ dictContains e "name" then some e else none
              | _ => none)).mapM (fun e =>
                match dictGet? e "id", dictGet? e "name" with
                | some (Value.int n), some (Value.str s) => Except.ok (⟨n, s⟩ : Keyword)
                | _, _ => Except.error "Keyword: validation error") |>.map some
        | _ => .ok none
      else .ok none
  | .list keywords_list =>
      (keywords_list.filterMap (fun kw =>
        match kw with
        | Value.dict e =>
            if dictContains e "id" ∧ dictContains e "name" then some e else none
        | _ => none)).mapM (fun e =>
          match dictGet? e "id", dictGet? e "name" with
          | some (Value.int n), some (Value.str s) => Except.ok (⟨n, s⟩ : Keyword)
          | _, _ => Except.error "Keyword: validation error") |>.map some
  | _ => .ok none

/-- The genre reshaping (`Movies.py` 376–384): a list whose dict entries with
both `id` and `name` become `Genre` objects. -/
def parseGenresPayload (genres_data : Value) : Except String (Option (List Genre)) :=
  match genres_data with
  | .list gs =>
      (gs.filterMap (fun g =>
        match g with
        | Value.dict e =>
            if dictContains e "id" ∧ dictContains e "name" then some e else none
        | _ => none)).mapM (fun e =>
          match dictGet? e "id", dictGet? e "name" with
          | some (Value.int n), some (Value.str s) => Except.ok (⟨n, s⟩ : Genre)
          | _, _ => Except.error "Genre: validation error") |>.map some
  | _ => .ok none

/-- Steps of `movie_from_tmdb_response` after the keyword handling: genre
handling, the write-back of the processed lists, and `Movie(**movie_data)`. -/
def movieFromResponseRest (data movie_data : Dict) (keywords : Option (List Keyword)) :
    (Except String Movie) × Dict × Dict :=
  let genres_data := dictGet? movie_data "genres"
  let step :=
    match genres_data with
    | some gd =>
        (match gd with
         | .list _ =>
             (match parseGenresPayload gd with
              | .error e => Except.error e
              | .ok genres => .ok (genres, dictPop movie_data "genres"))
         | _ => .ok (none, movie_data))
    | none => .ok (none, movie_data)
  match step with
  | .error e => (.error e, data, movie_data)
  | .ok (genres, movie_data) =>
      let movie_data :=
        if optListTruthy genres then
          dictSet movie_data "genres" (.genreObjs ((genres.getD []).map fun g => (g.id, g.name)))
        else movie_data
      let movie_data :=
        if optListTruthy keywords then
          dictSet movie_data "keywords" (.keywordObjs ((keywords.getD []).map fun k => (k.id, k.name)))
        else movie_data
      (Movie.fromDict movie_data, data, movie_data)

/-- `movie_from_tmdb_response(data)` with the heap made explicit: the result,
the caller's dict `data` as the call leaves it, and the internal copy
`movie_data` (`Movies.py` 339–392). -/
def movie_from_tmdb_response_run (data : Dict) : (Except String Movie) × Dict × Dict :=
  let movie_data : Dict := data
  if dictContains movie_data "keywords" then
    let keywords_data := dictGetD movie_data "keywords" .null
    match (if keywords_data.isNull then Except.ok none else parseKeywordsPayload keywords_data) with
    | .error e => (.error e, data, movie_data)
    | .ok keywords =>
        movieFromResponseRest data (dictPop movie_data "keywords") keywords
  else movieFromResponseRest data movie_data none

/-- `movie_from_tmdb_response(data)` as the callers consume it. -/
def movie_from_tmdb_response (data : Dict) : Except String Movie :=
  (movie_from_tmdb_response_run data).1

/-- `validate_movie_list` (`Movies.py` 395–439): skip non-mapping entries and
entries whose conversion raises, keep the valid `Movie`s in order. -/
def validate_movie_list (movies : List Value) : List Movie :=
  movies.filterMap fun movie_data =>
    match movie_data with
    | .dict d =>
        match movie_from_tmdb_response d with
        | .ok m => some m
        | .error _ => none
    | _ => none

/-- Modelled from the spec: `remove_duplicate_movies` is imported from
`src.models.Movies` but its definition is not in the repository snapshot.
Per the spec, "given a sequence of Movie, return the first-seen instance for
each unique id (stable order, first occurrence wins)". -/
def removeDupAux (seen : List Int) : List Movie → List Movie
  | [] => []
  | m :: rest =>
      if m.id ∈ seen then removeDupAux seen rest
      else m :: removeDupAux (m.id :: seen) rest

/-- Modelled from the spec: first-seen-per-id de-duplication of a movie list. -/
def remove_duplicate_movies (movies : List Movie) : List Movie :=
  removeDupAux [] movies

/-! ### The similarity scorer (`movie_recommendation_engine.py` 576–871)

Python `set` iteration order is implementation defined; `list(set(a) ∩ set(b))`
is modelled deterministically as the first-operand order with later duplicates
dropped. -/

/-- First occurrence of each element, in order (auxiliary for the set-to-list
conversions). -/
def firstOccurrences {α : Type} [DecidableEq α] : List α → List α
  | [] => []
  | x :: rest =>
      x :: (firstOccurrences rest).filter (fun y => y ≠ x)

/-- The five configurable similarity weights with the defaults of
`movie_recommendation_engine.py` 53–57. -/
structure Weights where
  genre_weight : ℚ := 3/10
  keyword_weight : ℚ := 1/10
  director_weight : ℚ := 1/10
  collection_weight : ℚ := 3/10
  production_company_weight : ℚ := 1/5

/-- The configuration surface the engine reads (defaults of lines 47–49). -/
structure EngineConfig where
  min_vote_count : Int := 100
  min_vote_average : ℚ := 6
  weights : Weights := {}

/-- The detailed-metrics map built by `calculate_similarity_score`. -/
structure Metrics where
  genre_similarity : ℚ
  keyword_similarity : ℚ
  director_similarity : ℚ
  collection_similarity : ℚ
  production_company_similarity : ℚ
  shared_genres : List String
  shared_keywords : List String
  shared_production_companies : List String
  similarity_reason : String
  deriving DecidableEq, Repr

namespace Engine

/-- `_calculate_genre_similarity` (lines 576–601): Jaccard similarity of the
genre-name sets, 0.0 when either list is empty. -/
def _calculate_genre_similarity (genres1 genres2 : List String) : ℚ :=
  if genres1 = [] ∨ genres2 = [] then 0
  else
    let set1 := genres1.toFinset
    let set2 := genres2.toFinset
    let intersection := (set1 ∩ set2).card
    let union := (set1 ∪ set2).card
    if union = 0 then 0 else (intersection : ℚ) / (union : ℚ)

/-- `_calculate_keyword_similarity` (lines 603–628). -/
def _calculate_keyword_similarity (keywords1 keywords2 : List String) : ℚ :=
  if keywords1 = [] ∨ keywords2 = [] then 0
  else
    let set1 := keywords1.toFinset
    let set2 := keywords2.toFinset
    let intersection := (set1 ∩ set2).card
    let union := (set1 ∪ set2).card
    if union = 0 then 0 else (intersection : ℚ) / (union : ℚ)

/-- `_calculate_director_similarity` (lines 630–650): 1.0 when both directors
are truthy and equal after `lower().strip()`. -/
def _calculate_director_similarity (director1 director2 : Option String) : ℚ :=
  match director1, director2 with
  | some d1, some d2 =>
      if d1 = "" ∨ d2 = "" then 0
      else if pyStrip (pyLower d1) = pyStrip (pyLower d2) then 1
      else 0
  | _, _ => 0

/-- `_calculate_collection_similarity` (lines 652–671). -/
def _calculate_collection_similarity (collection_id1 collection_id2 : Option Int) : ℚ :=
  match collection_id1, collection_id2 with
  | some c1, some c2 => if c1 = c2 then 1 else 0
  | _, _ => 0

/-- `_calculate_production_company_similarity` (lines 673–702): Jaccard over
company-id sets. -/
def _calculate_production_company_similarity (companies1 companies2 : List Int) : ℚ :=
  if companies1 = [] ∨ companies2 = [] then 0
  else
    let set1 := companies1.toFinset
    let set2 := companies2.toFinset
    let intersection := (set1 ∩ set2).card
    let union := (set1 ∪ set2).card
    if union = 0 then 0 else (intersection : ℚ) / (union : ℚ)

/-- `_generate_similarity_reason` (lines 802–871). -/
def _generate_similarity_reason (genre_sim keyword_sim director_sim collection_sim
    production_company_sim : ℚ) (shared_genres : List String)
    (director1 : Option String) (_director2 : Option String)
    (collection1 : Option String) (_collection2 : Option String)
    (shared_company_names : List String) : String :=
  let reasons : List String :=
    (if collection_sim > 0 ∧ optStrTruthy collection1 then
       ["Same franchise: " ++ collection1.getD ""]
     else []) ++
    (if production_company_sim > 0 ∧ shared_company_names ≠ [] then
       let company_str := String.intercalate ", " (shared_company_names.take 2)
       let company_str :=
         if shared_company_names.length > 2 then
           company_str ++ " (+" ++ toString (shared_company_names.length - 2) ++ " more)"
         else company_str
       ["Same studio: " ++ company_str]
     else []) ++
    (if director_sim > 0 ∧ optStrTruthy director1 then
       ["Same director: " ++ director1.getD ""]
     else []) ++
    (if genre_sim > 1/2 then
       (if shared_genres ≠ [] then
          ["Similar genres: " ++ String.intercalate ", " (shared_genres.take 3)]
        else ["Similar genres"])
     else if genre_sim > 0 then ["Some genre overlap"]
     else []) ++
    (if keyword_sim > 3/10 then ["Similar themes/keywords"] else [])
  if reasons = [] then "General similarity"
  else if reasons.length = 1 then reasons.headD ""
  else String.intercalate "; " (reasons.take 3)

/-- The id-to-name map comprehension over the target's production companies
(lines 768–772): dict entries with a truthy id, later entries overwriting
earlier ones; a non-string name is modelled as the default `""`. -/
def companyNameLookup (companies : List Value) (cid : Int) : Option String :=
  let entries : List (Int × String) := companies.filterMap fun v =>
    match v with
    | .dict d =>
        match dictGet? d "id" with
        | some (.int n) =>
            if n ≠ 0 then
              some (n, match dictGet? d "name" with | some (.str s) => s | _ => "")
            else none
        | _ => none
    | _ => none
  (entries.reverse.find? (fun e => e.1 = cid)).map (·.2)

/-- `calculate_similarity_score` (lines 704–800): the five sub-scores, the
clamped weighted sum, and the metrics map. -/
def calculate_similarity_score (cfg : EngineConfig) (target_movie candidate_movie : Movie) :
    ℚ × Metrics :=
  let genres1 := if optListTruthy target_movie.genres then target_movie.genre_names else []
  let genres2 := if optListTruthy candidate_movie.genres then candidate_movie.genre_names else []
  let keywords1 := if optListTruthy target_movie.keywords then target_movie.keyword_names else []
  let keywords2 := if optListTruthy candidate_movie.keywords then candidate_movie.keyword_names else []
  let companies1 := target_movie.production_company_ids
  let companies2 := candidate_movie.production_company_ids
  let genre_sim := _calculate_genre_similarity genres1 genres2
  let keyword_sim := _calculate_keyword_similarity keywords1 keywords2
  let director_sim := _calculate_director_similarity target_movie.director candidate_movie.director
  let collection_sim :=
    _calculate_collection_similarity target_movie.collection_id candidate_movie.collection_id
  let production_company_sim := _calculate_production_company_similarity companies1 companies2
  let similarity_score :=
    genre_sim * cfg.weights.genre_weight +
    keyword_sim * cfg.weights.keyword_weight +
    director_sim * cfg.weights.director_weight +
    collection_sim * cfg.weights.collection_weight +
    production_company_sim * cfg.weights.production_company_weight
  let similarity_score := max 0 (min 1 similarity_score)
  let shared_genres := firstOccurrences (genres1.filter (fun g => g ∈ genres2))
  let shared_keywords := firstOccurrences (keywords1.filter (fun k => k ∈ keywords2))
  let shared_companies := firstOccurrences (companies1.filter (fun c => c ∈ companies2))
  let shared_company_names :=
    if shared_companies ≠ [] ∧ optListTruthy target_movie.production_companies then
      shared_companies.filterMap fun company_id =>
        match companyNameLookup (target_movie.production_companies.getD []) company_id with
        | some name => if name ≠ "" then some name else none
        | none => none
    else []
  let similarity_reason :=
    _generate_similarity_reason genre_sim keyword_sim director_sim collection_sim
      production_company_sim shared_genres target_movie.director candidate_movie.director
      target_movie.collection_name candidate_movie.collection_name shared_company_names
  (similarity_score,
   { genre_similarity := genre_sim,
     keyword_similarity := keyword_sim,
     director_similarity := director_sim,
     collection_similarity := collection_sim,
     production_company_similarity := production_company_sim,
     shared_genres := shared_genres,
     shared_keywords := shared_keywords,
     shared_production_companies := shared_company_names,
     similarity_reason := similarity_reason })

end Engine

namespace RecService

/-- `_calculate_genre_similarity` of `recommendation_service.py` (lines 33–58):
the second, textually identical Jaccard implementation in the repository. -/
def _calculate_genre_similarity (movie1_genres movie2_genres : List String) : ℚ :=
  if movie1_genres = [] ∨ movie2_genres = [] then 0
  else
    let set1 := movie1_genres.toFinset
    let set2 := movie2_genres.toFinset
    let intersection := (set1 ∩ set2).card
    let union := (set1 ∪ set2).card
    if union = 0 then 0 else (intersection : ℚ) / (union : ℚ)

end RecService

/-! ### The effectful engine (`movie_recommendation_engine.py` 64–574, 873–943) -/

/-- One outbound catalog request, recorded at the moment the client is called. -/
inductive Request where
  | similar (movie_id : Int)
  | recommendations (movie_id : Int)
  | movies_by_year (year : Int)
  | discover (year : Option Int) (genre_id : Int)
  | details (movie_id : Int)
  | keywords (movie_id : Int)
  | credits (movie_id : Int)
  deriving DecidableEq, Repr

/-- The TMDB client as the engine consumes it.  `.error` is a raised exception;
for the list endpoints `.ok none` is a falsy response or one without a
`results` key and `.ok (some rs)` the `results` list; for the detail endpoints
the payload is the whole dict. -/
structure TMDBClient where
  get_similar_movies : Int → Except String (Option (List Value))
  get_movie_recommendations : Int → Except String (Option (List Value))
  get_movies_by_year : Int → Except String (Option (List Value))
  discover_movies : Option Int → Int → Except String (Option (List Value))
  get_movie_details : Int → Except String (Option Dict)
  get_movie_keywords : Int → Except String (Option Dict)
  get_movie_credits : Int → Except String (Option Dict)

/-- The engine's mutable state: the `api_calls_made` counter plus the
instrumentation trace of issued requests. -/
structure EngineState where
  api_calls_made : Nat
  requests : List Request
  deriving DecidableEq, Repr

/-- Record an outbound request (the client call itself). -/
def EngineState.log (st : EngineState) (r : Request) : EngineState :=
  { st with requests := st.requests ++ [r] }

/-- `self.api_calls_made += 1`, executed after a client call returns. -/
def EngineState.bump (st : EngineState) : EngineState :=
  { st with api_calls_made := st.api_calls_made + 1 }

/-- Python `m.get("vote_count", 0) >= self.min_vote_count` on a raw entry;
`none` models the raised `TypeError`/`AttributeError` on a non-dict entry or a
non-integer count. -/
def rawVoteCountOk? (cfg : EngineConfig) (m : Value) : Option Bool :=
  match m with
  | .dict d =>
      match dictGetD d "vote_count" (.int 0) with
      | .int n => some (cfg.min_vote_count ≤ n)
      | _ => none
  | _ => none

/-- The vote-count filtering list comprehension; `none` when any entry raises
(the exception aborts the whole comprehension). -/
def filterByVoteCount (cfg : EngineConfig) : List Value → Option (List Value)
  | [] => some []
  | m :: rest =>
      match rawVoteCountOk? cfg m with
      | none => none
      | some b => (filterByVoteCount cfg rest).map (fun l => if b then m :: l else l)

/-- The `try`-guarded list-request block the candidate strategies repeat
(lines 216–236, 238–258, 306–325, 376–397, 461–480): record the request, call
the client, bump the counter when the call returns, and hand the `results`
list to `handle`.  A raised exception, a falsy or `results`-less payload, or a
`handle` that itself raises (`none`) contributes nothing. -/
def fetchResults (call : Except String (Option (List Value))) (req : Request)
    (handle : List Value → Option (List Value)) (st : EngineState) :
    Option (List Value) × EngineState :=
  let st := st.log req
  match call with
  | .error _ => (none, st)
  | .ok data =>
      let st := st.bump
      match data with
      | none => (none, st)
      | some results => (handle results, st)

/-- `_get_candidates_from_tmdb_api` (lines 192–272): similar page 1 plus
recommendations page 1, each vote-count filtered, then normalized, deduplicated
and purged of the target's id.  Each `try` block catches its own exception. -/
def _get_candidates_from_tmdb_api (client : TMDBClient) (cfg : EngineConfig)
    (target_movie : Movie) (st : EngineState) : List Movie × EngineState :=
  let candidates : List Value := []
  let (r1, st) := fetchResults (client.get_similar_movies target_movie.id)
    (.similar target_movie.id) (filterByVoteCount cfg) st
  let candidates := candidates ++ r1.getD []
  let (r2, st) := fetchResults (client.get_movie_recommendations target_movie.id)
    (.recommendations target_movie.id) (filterByVoteCount cfg) st
  let candidates := candidates ++ r2.getD []
  let movies := validate_movie_list candidates
  let unique_movies := remove_duplicate_movies movies
  let unique_movies := unique_movies.filter (fun m => m.id ≠ target_movie.id)
  (unique_movies, st)

/-- `_get_candidates_same_year` (lines 274–338): empty when the target's
release year is falsy, otherwise one discover-by-year request capped at 50. -/
def _get_candidates_same_year (client : TMDBClient) (cfg : EngineConfig)
    (target_movie : Movie) (st : EngineState) : List Movie × EngineState :=
  if ¬ optIntTruthy target_movie.release_year then ([], st)
  else
    let y := (target_movie.release_year).getD 0
    let (r, st) := fetchResults (client.get_movies_by_year y) (.movies_by_year y)
      (fun movies_data => some (movies_data.take 50)) st
    let candidates := r.getD []
    let movies := validate_movie_list candidates
    let movies := movies.filter (fun m => m.id ≠ target_movie.id)
    (movies, st)

/-- The `for genre in genres_to_use` loop of `_get_candidates_same_genre`
(lines 375–403): one discover request per genre, 25 results each, exceptions
per iteration caught. -/
def sameGenreFor (client : TMDBClient) (cfg : EngineConfig) (year : Option Int) :
    List Genre → List Value → EngineState → List Value × EngineState
  | [], candidates, st => (candidates, st)
  | genre :: rest, candidates, st =>
      let (r, st) := fetchResults (client.discover_movies year genre.id)
        (.discover year genre.id) (fun movies_data => some (movies_data.take 25)) st
      sameGenreFor client cfg year rest (candidates ++ r.getD []) st

/-- `_get_candidates_same_genre` (lines 340–417): empty without genres,
otherwise the loop over the first two genres, then normalize, dedupe, purge. -/
def _get_candidates_same_genre (client : TMDBClient) (cfg : EngineConfig)
    (target_movie : Movie) (st : EngineState) : List Movie × EngineState :=
  if ¬ optListTruthy target_movie.genres then ([], st)
  else
    let genres_to_use := (target_movie.genres.getD []).take 2
    let (candidates, st) :=
      sameGenreFor client cfg target_movie.release_year genres_to_use [] st
    let movies := validate_movie_list candidates
    let unique_movies := remove_duplicate_movies movies
    let unique_movies := unique_movies.filter (fun m => m.id ≠ target_movie.id)
    (unique_movies, st)

/-- The `for year_offset in [-2, -1, 1, 2]` loop of `_get_candidates_hybrid`
(lines 458–486): a nearby year is requested only when `1900 < y ∧ y ≤ 2025`,
each request contributes up to 10 validated movies, exceptions per iteration
caught. -/
def nearbyYearsFor (client : TMDBClient) (cfg : EngineConfig) (y : Int) :
    List Int → List Movie → EngineState → List Movie × EngineState
  | [], all_candidates, st => (all_candidates, st)
  | year_offset :: rest, all_candidates, st =>
      let nearby_year := y + year_offset
      if 1900 < nearby_year ∧ nearby_year ≤ 2025 then
        let (r, st) := fetchResults (client.get_movies_by_year nearby_year)
          (.movies_by_year nearby_year) (fun movies_data => some (movies_data.take 10)) st
        let all_candidates := all_candidates ++ validate_movie_list (r.getD [])
        nearbyYearsFor client cfg y rest all_candidates st
      else nearbyYearsFor client cfg y rest all_candidates st

/-- `_get_candidates_hybrid` (lines 419–497): TMDB suggestions, same-year
candidates and the four neighbouring years, deduplicated once at the end. -/
def _get_candidates_hybrid (client : TMDBClient) (cfg : EngineConfig)
    (target_movie : Movie) (st : EngineState) : List Movie × EngineState :=
  let (tmdb_candidates, st) := _get_candidates_from_tmdb_api client cfg target_movie st
  let all_candidates := tmdb_candidates
  let (all_candidates, st) :=
    if optIntTruthy target_movie.release_year then
      let y := (target_movie.release_year).getD 0
      let (same_year_candidates, st) := _get_candidates_same_year client cfg target_movie st
      let all_candidates := all_candidates ++ same_year_candidates
      nearbyYearsFor client cfg y [-2, -1, 1, 2] all_candidates st
    else (all_candidates, st)
  let unique_candidates := remove_duplicate_movies all_candidates
  let unique_candidates := unique_candidates.filter (fun m => m.id ≠ target_movie.id)
  (unique_candidates, st)

/-- `_get_candidate_pool` (lines 168–190): strategy dispatch; the trailing
`else` raises `ValueError`. -/
def _get_candidate_pool (client : TMDBClient) (cfg : EngineConfig)
    (target_movie : Movie) (strategy : String) (st : EngineState) :
    Except String (List Movie) × EngineState :=
  if strategy = "tmdb_api" then
    let (c, st) := _get_candidates_from_tmdb_api client cfg target_movie st
    (.ok c, st)
  else if strategy = "same_year" then
    let (c, st) := _get_candidates_same_year client cfg target_movie st
    (.ok c, st)
  else if strategy = "same_genre" then
    let (c, st) := _get_candidates_same_genre client cfg target_movie st
    (.ok c, st)
  else if strategy = "hybrid" then
    let (c, st) := _get_candidates_hybrid client cfg target_movie st
    (.ok c, st)
  else (.error ("Invalid strategy: " ++ strategy), st)

/-- The director extraction of the enrichment step (lines 920–929): first crew
member whose `job` is `"Director"`; `.error` models the `AttributeError` a
non-dict crew entry raises. -/
def findDirector : List Value → Except String (Option Value)
  | [] => .ok none
  | person :: rest =>
      match person with
      | .dict pd =>
          if (match dictGetD pd "job" .null with
              | Value.str s => s == "Director"
              | _ => false) then
            .ok (some (dictGetD pd "name" .null))
          else findDirector rest
      | _ => .error "AttributeError"

/-- The keywords merge of the enrichment step (lines 913–914): a truthy
keywords payload containing a `keywords` key is stored under the copy's
`keywords` key. -/
def applyKeywordsStep (keywords? : Option Dict) (details_data : Dict) : Dict :=
  match keywords? with
  | some kd =>
      if ¬ kd.isEmpty ∧ dictContains kd "keywords" then
        dictSet details_data "keywords" (.dict kd)
      else details_data
  | none => details_data

/-- The director extraction of the enrichment step (lines 920–929): the first
crew member whose job is Director, written under the `director` key when
truthy; `.error` models the exception a non-dict crew entry (or non-list crew)
raises. -/
def applyDirectorStep (credits? : Option Dict) (details_data : Dict) : Except String Dict :=
  match credits? with
  | some cd =>
      if ¬ cd.isEmpty ∧ dictContains cd "crew" then
        match dictGetD cd "crew" (.list []) with
        | .list crew =>
            (findDirector crew).map fun dir? =>
              match dir? with
              | some director =>
                  if valueTruthy director then dictSet details_data "director" director
                  else details_data
              | none => details_data
        | _ => .error "TypeError"
      else .ok details_data
  | none => .ok details_data

/-- The `try` body of the enrichment loop for one candidate (lines 899–941):
details, keywords and credits requests, then a rebuild via
`movie_from_tmdb_response`; any failure falls back to the original candidate. -/
def enrichOne (client : TMDBClient) (candidate : Movie) (st : EngineState) :
    Movie × EngineState :=
  let st := st.log (.details candidate.id)
  match client.get_movie_details candidate.id with
  | .error _ => (candidate, st)
  | .ok details? =>
      let st := st.bump
      match details? with
      | none => (candidate, st)
      | some details_data =>
          if details_data.isEmpty then (candidate, st)
          else
            let st := st.log (.keywords candidate.id)
            match client.get_movie_keywords candidate.id with
            | .error _ => (candidate, st)
            | .ok keywords? =>
                let st := st.bump
                let details_data := applyKeywordsStep keywords? details_data
                let st := st.log (.credits candidate.id)
                match client.get_movie_credits candidate.id with
                | .error _ => (candidate, st)
                | .ok credits? =>
                    let st := st.bump
                    match applyDirectorStep credits? details_data with
                    | .error _ => (candidate, st)
                    | .ok details_data =>
                        match movie_from_tmdb_response details_data with
                        | .ok enriched_movie => (enriched_movie, st)
                        | .error _ => (candidate, st)

/-- `_enrich_candidates_if_needed` (lines 873–943): candidates lacking genres,
keywords or a director are rebuilt via `enrichOne`, the others pass through. -/
def _enrich_candidates_if_needed (client : TMDBClient) (cfg : EngineConfig) :
    List Movie → EngineState → List Movie × EngineState
  | [], st => ([], st)
  | candidate :: rest, st =>
      let needs_enrichment :=
        ¬ optListTruthy candidate.genres ∨ ¬ optListTruthy candidate.keywords ∨
          candidate.director = none
      if ¬ needs_enrichment then
        let (tail, st) := _enrich_candidates_if_needed client cfg rest st
        (candidate :: tail, st)
      else
        let (enriched_one, st) := enrichOne client candidate st
        let (tail, st) := _enrich_candidates_if_needed client cfg rest st
        (enriched_one :: tail, st)

/-- A ranked entry of the result dictionaries (lines 560–567). -/
structure SimilarEntry where
  similar_movie : Movie
  similarity_score : ℚ
  similarity_reason : String
  similarity_metrics : Metrics

/-- The ranking step (lines 553–557): Python's stable `list.sort` with
`reverse=True` on the score, then `[:top_n]`. -/
def rankScored (scored_movies : List (Movie × ℚ × Metrics)) (top_n : Nat) :
    List (Movie × ℚ × Metrics) :=
  (scored_movies.mergeSort (fun a b => decide (b.2.1 ≤ a.2.1))).take top_n

/-- `_calculate_similarity_and_rank` (lines 499–574): enrich, score every
non-self candidate, sort descending by score, truncate, format. -/
def _calculate_similarity_and_rank (client : TMDBClient) (cfg : EngineConfig)
    (target_movie : Movie) (candidates : List Movie) (top_n : Nat) (st : EngineState) :
    List SimilarEntry × EngineState :=
  if candidates.isEmpty then ([], st)
  else
    let (enriched_candidates, st) := _enrich_candidates_if_needed client cfg candidates st
    let scored_movies :=
      (enriched_candidates.filter (fun c => c.id ≠ target_movie.id)).map fun candidate =>
        let sm := Engine.calculate_similarity_score cfg target_movie candidate
        (candidate, sm.1, sm.2)
    let top_similar := rankScored scored_movies top_n
    (top_similar.map fun x =>
       { similar_movie := x.1,
         similarity_score := x.2.1,
         similarity_reason := x.2.2.similarity_reason,
         similarity_metrics := x.2.2 },
     st)

/-- One output entry of `find_similar_movies_for_each` (lines 139–142). -/
structure RecommendationEntry where
  original_movie : Movie
  similar_movies : List SimilarEntry

/-- The per-target loop of `find_similar_movies_for_each` (lines 113–159): a
raised exception or an empty pool or empty ranking skips the target; every
remaining target is still processed. -/
def processLoop (client : TMDBClient) (cfg : EngineConfig) (strategy : String)
    (similar_per_movie : Nat) :
    List Movie → EngineState → List RecommendationEntry × EngineState
  | [], st => ([], st)
  | target_movie :: rest, st =>
      match _get_candidate_pool client cfg target_movie strategy st with
      | (.error _, st) => processLoop client cfg strategy similar_per_movie rest st
      | (.ok candidates, st) =>
          if candidates.isEmpty then processLoop client cfg strategy similar_per_movie rest st
          else
            let (similar_movies, st) :=
              _calculate_similarity_and_rank client cfg target_movie candidates
                similar_per_movie st
            if similar_movies.isEmpty then
              processLoop client cfg strategy similar_per_movie rest st
            else
              let (tail, st) := processLoop client cfg strategy similar_per_movie rest st
              ({ original_movie := target_movie, similar_movies := similar_movies } :: tail, st)

/-- `find_similar_movies_for_each` (lines 64–166): the strategy guard raises
before the counter reset and before any request; then the counter is reset and
the per-target loop runs. -/
def find_similar_movies_for_each (client : TMDBClient) (cfg : EngineConfig)
    (top_movies : List Movie) (similar_per_movie : Nat) (strategy : String)
    (st : EngineState) : Except String (List RecommendationEntry) × EngineState :=
  if strategy ∉ (["tmdb_api", "same_year", "same_genre", "hybrid"] : List String) then
    (.error ("Invalid strategy: " ++ strategy ++
       ". Must be one of: tmdb_api, same_year, same_genre, hybrid"), st)
  else
    let st := { st with api_calls_made := 0 }
    let (results, st) := processLoop client cfg strategy similar_per_movie top_movies st
    (.ok results, st)

/-! ### Derived and claim-side definitions -/

/-- The per-target outcome, independent of the engine state: the entry a target
contributes, or `none` when its pool raises, is empty, or ranks to nothing. -/
def processTargetPure (client : TMDBClient) (cfg : EngineConfig) (strategy : String)
    (k : Nat) (target_movie : Movie) : Option RecommendationEntry :=
  match _get_candidate_pool client cfg target_movie strategy ⟨0, []⟩ with
  | (.error _, _) => none
  | (.ok candidates, st1) =>
      if candidates.isEmpty then none
      else
        let (similar_movies, _) :=
          _calculate_similarity_and_rank client cfg target_movie candidates k st1
        if similar_movies.isEmpty then none
        else some { original_movie := target_movie, similar_movies := similar_movies }

/-- The value component of `fetchResults`, which does not depend on the engine
state. -/
def fetchValue (call : Except String (Option (List Value)))
    (handle : List Value → Option (List Value)) : Option (List Value) :=
  match call with
  | .error _ => none
  | .ok none => none
  | .ok (some results) => handle results

/-- The years of the discover-by-year requests in a trace, in order. -/
def yearRequests (requests : List Request) : List Int :=
  requests.filterMap fun r =>
    match r with
    | .movies_by_year y => some y
    | _ => none

/-- The sort of the ranking step before truncation (stable, descending score). -/
def sortScoredDesc (scored_movies : List (Movie × ℚ × Metrics)) :
    List (Movie × ℚ × Metrics) :=
  scored_movies.mergeSort (fun a b => decide (b.2.1 ≤ a.2.1))

/-- Claim-side reading of C3's "granularity YYYY": exactly four digits. -/
def shapeYYYY (s : String) : Bool :=
  s.data.length = 4 ∧ s.data.all isDigitChar

/-- Claim-side reading of C3's "granularity YYYY-MM": four digits, a dash, two
digits. -/
def shapeYYYYMM (s : String) : Bool :=
  match s.data with
  | [y1, y2, y3, y4, d, m1, m2] =>
      [y1, y2, y3, y4, m1, m2].all isDigitChar ∧ d = '-'
  | _ => false

/-- Claim-side reading of C3's "granularity YYYY-MM-DD": four digits, dash, two
digits, dash, two digits. -/
def shapeYYYYMMDD (s : String) : Bool :=
  match s.data with
  | [y1, y2, y3, y4, d1, m1, m2, d2, a1, a2] =>
      [y1, y2, y3, y4, m1, m2, a1, a2].all isDigitChar ∧ d1 = '-' ∧ d2 = '-'
  | _ => false

/-- Claim-side reading of C3: "the string has one of the three granularities". -/
def hasClaimGranularity (s : String) : Bool :=
  shapeYYYY s ∨ shapeYYYYMM s ∨ shapeYYYYMMDD s

/-- What the validator actually accepts for a non-empty string (the amended
C3): a real calendar date under `%Y-%m-%d` (4-digit year ≥ 1, 1–2-digit month
and day), or — only at length 7 — a `%Y-%m` date, or — only at length 4 — a
`%Y` year ≥ 1. -/
def acceptedDateSpec (s : String) : Bool :=
  strptimeYmd s.data ∨ (s.length = 7 ∧ strptimeYm s.data) ∨
    (s.length = 4 ∧ strptimeY s.data)

/-- The spec's C1 scenario target: genres Action/SciFi/Thriller, keywords
ai/vr/hacker, director Lana Wachowski, collection 2344, companies 79 and 174. -/
def scenarioTarget : Movie :=
  { id := 1, title := "The Matrix",
    release_date := some "1999-03-31",
    genres := some [⟨28, "Action"⟩, ⟨878, "SciFi"⟩, ⟨53, "Thriller"⟩],
    keywords := some [⟨1, "ai"⟩, ⟨2, "vr"⟩, ⟨3, "hacker"⟩],
    director := some "Lana Wachowski",
    collection_id := some 2344,
    collection_name := some "The Matrix Collection",
    production_companies := some
      [.dict [("id", .int 79), ("name", .str "Village Roadshow Pictures")],
       .dict [("id", .int 174), ("name", .str "Warner Bros. Pictures")]] }

/-- The spec's C1 scenario candidate: same genres, keywords ai/vr/sequel, same
director, collection and companies. -/
def scenarioCandidate : Movie :=
  { id := 3, title := "The Matrix Reloaded",
    release_date := some "2003-05-15",
    genres := some [⟨28, "Action"⟩, ⟨878, "SciFi"⟩, ⟨53, "Thriller"⟩],
    keywords := some [⟨1, "ai"⟩, ⟨2, "vr"⟩, ⟨6, "sequel"⟩],
    director := some "Lana Wachowski",
    collection_id := some 2344,
    collection_name := some "The Matrix Collection",
    production_companies := some
      [.dict [("id", .int 79), ("name", .str "Village Roadshow Pictures")],
       .dict [("id", .int 174), ("name", .str "Warner Bros. Pictures")]] }

/-- A target with release year 2020 (used to instantiate the hybrid-strategy
theorem). -/
def hybridWitnessTarget : Movie :=
  { id := 42, title := "Witness", release_date := some "2020-01-01" }

/-- An all-zero metrics record (used to instantiate the ranking theorem). -/
def sampleMetrics : Metrics :=
  { genre_similarity := 0, keyword_similarity := 0, director_similarity := 0,
    collection_similarity := 0, production_company_similarity := 0,
    shared_genres := [], shared_keywords := [], shared_production_companies := [],
    similarity_reason := "General similarity" }

/-- A two-entry scored pool (used to instantiate the ranking theorem). -/
def sampleScoredPool : List (Movie × ℚ × Metrics) :=
  [({ id := 1, title := "A" }, 1/2, sampleMetrics),
   ({ id := 2, title := "B" }, 3/4, sampleMetrics)]

/-- A client whose every method returns a successful-but-empty response (used
to instantiate the universally quantified theorems at a concrete run). -/
def trivialClient : TMDBClient :=
  { get_similar_movies := fun _ => .ok none,
    get_movie_recommendations := fun _ => .ok none,
    get_movies_by_year := fun _ => .ok none,
    discover_movies := fun _ _ => .ok none,
    get_movie_details := fun _ => .ok none,
    get_movie_keywords := fun _ => .ok none,
    get_movie_credits := fun _ => .ok none }

/-! ## Theorems -/

/-- C7: for every weight configuration and every pair of movies the overall
score of `calculate_similarity_score` lies in `[0, 1]`, and it is the clamp of
the plain weighted sum of the five sub-scores (no renormalization). -/
theorem overall_score_clamped (cfg : EngineConfig) (target candidate : Movie) :
    0 ≤ (Engine.calculate_similarity_score cfg target candidate).1 ∧
    (Engine.calculate_similarity_score cfg target candidate).1 ≤ 1 ∧
    (Engine.calculate_similarity_score cfg target candidate).1 =
      max 0 (min 1
        ((Engine.calculate_similarity_score cfg target candidate).2.genre_similarity *
            cfg.weights.genre_weight +
         (Engine.calculate_similarity_score cfg target candidate).2.keyword_similarity *
            cfg.weights.keyword_weight +
         (Engine.calculate_similarity_score cfg target candidate).2.director_similarity *
            cfg.weights.director_weight +
         (Engine.calculate_similarity_score cfg target candidate).2.collection_similarity *
            cfg.weights.collection_weight +
         (Engine.calculate_similarity_score cfg target candidate).2.production_company_similarity *
            cfg.weights.production_company_weight)) := by
  refine ⟨le_max_left _ _, max_le (by norm_num) (min_le_left _ _), rfl⟩

/-- C9: genre similarity is the Jaccard similarity of the induced name sets,
it is 0 when either list is empty, and the engine's implementation agrees with
the recommendation service's. -/
theorem genre_similarity_jaccard (genres1 genres2 : List String) :
    Engine._calculate_genre_similarity genres1 genres2 =
      ((genres1.toFinset ∩ genres2.toFinset).card : ℚ) /
        ((genres1.toFinset ∪ genres2.toFinset).card : ℚ) ∧
    ((genres1 = [] ∨ genres2 = []) → Engine._calculate_genre_similarity genres1 genres2 = 0) ∧
    Engine._calculate_genre_similarity genres1 genres2 =
      RecService._calculate_genre_similarity genres1 genres2 := by
  refine ⟨?_, ?_, rfl⟩
  · by_cases h : genres1 = [] ∨ genres2 = []
    · rw [Engine._calculate_genre_similarity, if_pos h]
      rcases h with h | h
      · have : genres1.toFinset = ∅ := by simp [h]
        rw [this]
        simp
      · have : genres2.toFinset = ∅ := by simp [h]
        rw [this]
        simp
    · rw [Engine._calculate_genre_similarity, if_neg h]
      push_neg at h
      have h1 : genres1.toFinset ≠ ∅ := by
        simpa [List.toFinset_eq_empty_iff] using h.1
      have hu : (genres1.toFinset ∪ genres2.toFinset).card ≠ 0 := by
        simp only [ne_eq, Finset.card_eq_zero, Finset.union_eq_empty]
        exact fun hc => h1 hc.1
      simp [hu]
  · intro h
    rw [Engine._calculate_genre_similarity, if_pos h]

/-- C1: on the spec's scenario pair (identical genre and company sets, keyword
sets sharing 2 of 4 names, same director and collection) the default-weight
engine returns the sub-scores 1, 1/2, 1, 1, 1 and the overall score
19/20 = 0.95. -/
theorem scenario_pair_score :
    (Engine.calculate_similarity_score {} scenarioTarget scenarioCandidate).2.genre_similarity
        = 1 ∧
    (Engine.calculate_similarity_score {} scenarioTarget scenarioCandidate).2.keyword_similarity
        = 1/2 ∧
    (Engine.calculate_similarity_score {} scenarioTarget scenarioCandidate).2.director_similarity
        = 1 ∧
    (Engine.calculate_similarity_score {} scenarioTarget scenarioCandidate).2.collection_similarity
        = 1 ∧
    (Engine.calculate_similarity_score
        {} scenarioTarget scenarioCandidate).2.production_company_similarity = 1 ∧
    (Engine.calculate_similarity_score {} scenarioTarget scenarioCandidate).1 = 19/20 := by
  have hg : Engine._calculate_genre_similarity ["Action", "SciFi", "Thriller"]
      ["Action", "SciFi", "Thriller"] = 1 := by
    have hi : ((["Action", "SciFi", "Thriller"].toFinset ∩
        ["Action", "SciFi", "Thriller"].toFinset).card) = 3 := by decide
    have hu : ((["Action", "SciFi", "Thriller"].toFinset ∪
        ["Action", "SciFi", "Thriller"].toFinset).card) = 3 := by decide
    rw [Engine._calculate_genre_similarity, if_neg (by simp)]
    simp only [hi, hu]
    norm_num
  have hk : Engine._calculate_keyword_similarity ["ai", "vr", "hacker"]
      ["ai", "vr", "sequel"] = 1/2 := by
    have hi : ((["ai", "vr", "hacker"].toFinset ∩
        ["ai", "vr", "sequel"].toFinset).card) = 2 := by decide
    have hu : ((["ai", "vr", "hacker"].toFinset ∪
        ["ai", "vr", "sequel"].toFinset).card) = 4 := by decide
    rw [Engine._calculate_keyword_similarity, if_neg (by simp)]
    simp only [hi, hu]
    norm_num
  have hd : Engine._calculate_director_similarity (some "Lana Wachowski")
      (some "Lana Wachowski") = 1 := by
    rw [Engine._calculate_director_similarity]
    rw [if_neg (by decide), if_pos rfl]
  have hc : Engine._calculate_collection_similarity (some 2344) (some 2344) = 1 := by
    rw [Engine._calculate_collection_similarity]
    rw [if_pos rfl]
  have hp : Engine._calculate_production_company_similarity [79, 174] [79, 174] = 1 := by
    have hi : ((([79, 174] : List Int).toFinset ∩ ([79, 174] : List Int).toFinset).card) = 2 := by
      decide
    have hu : ((([79, 174] : List Int).toFinset ∪ ([79, 174] : List Int).toFinset).card) = 2 := by
      decide
    rw [Engine._calculate_production_company_similarity, if_neg (by simp)]
    simp only [hi, hu]
    norm_num
  have e1 : (if optListTruthy scenarioTarget.genres then scenarioTarget.genre_names else [])
      = ["Action", "SciFi", "Thriller"] := rfl
  have e2 : (if optListTruthy scenarioCandidate.genres then scenarioCandidate.genre_names
      else []) = ["Action", "SciFi", "Thriller"] := rfl
  have e3 : (if optListTruthy scenarioTarget.keywords then scenarioTarget.keyword_names else [])
      = ["ai", "vr", "hacker"] := rfl
  have e4 : (if optListTruthy scenarioCandidate.keywords then scenarioCandidate.keyword_names
      else []) = ["ai", "vr", "sequel"] := rfl
  have e5 : scenarioTarget.production_company_ids = [79, 174] := rfl
  have e6 : scenarioCandidate.production_company_ids = [79, 174] := rfl
  have e7 : scenarioTarget.director = some "Lana Wachowski" := rfl
  have e8 : scenarioCandidate.director = some "Lana Wachowski" := rfl
  have e9 : scenarioTarget.collection_id = some 2344 := rfl
  have e10 : scenarioCandidate.collection_id = some 2344 := rfl
  refine ⟨?_, ?_, ?_, ?_, ?_, ?_⟩ <;>
    simp only [Engine.calculate_similarity_score, e1, e2, e3, e4, e5, e6, e7, e8, e9, e10,
      hg, hk, hd, hc, hp] <;>
    norm_num

/-! ### De-duplication properties (C2) -/

/-- Auxiliary for C2: the de-duplicated list is a sublist of the input. -/
theorem removeDupAux_sublist (l : List Movie) :
    ∀ seen : List Int, (removeDupAux seen l).Sublist l := by
  induction l with
  | nil => intro seen; simp [removeDupAux]
  | cons m rest ih =>
      intro seen
      rw [removeDupAux]
      by_cases h : m.id ∈ seen
      · rw [if_pos h]
        exact (ih seen).trans (List.sublist_cons_self m rest)
      · rw [if_neg h]
        exact (ih (m.id :: seen)).cons₂ m

/-- Auxiliary for C2: the kept movies have pairwise distinct ids, none of them
in `seen`. -/
theorem removeDupAux_nodup (l : List Movie) :
    ∀ seen : List Int, ((removeDupAux seen l).map Movie.id).Nodup ∧
      ∀ m ∈ removeDupAux seen l, m.id ∉ seen := by
  induction l with
  | nil => intro seen; simp [removeDupAux]
  | cons m rest ih =>
      intro seen
      rw [removeDupAux]
      by_cases h : m.id ∈ seen
      · rw [if_pos h]; exact ih seen
      · rw [if_neg h]
        obtain ⟨ihn, ihs⟩ := ih (m.id :: seen)
        refine ⟨?_, ?_⟩
        · simp only [List.map_cons, List.nodup_cons]
          refine ⟨?_, ihn⟩
          intro hmem
          obtain ⟨x, hx, hxid⟩ := List.mem_map.mp hmem
          exact (ihs x hx) (by simp [hxid])
        · intro x hx
          rcases List.mem_cons.mp hx with rfl | hx
          · exact h
          · intro hs
            exact (ihs x hx) (List.mem_cons_of_mem _ hs)

/-- Auxiliary for C2: every id of the input, except those already seen,
survives into the output. -/
theorem removeDupAux_covers (l : List Movie) :
    ∀ seen : List Int, ∀ x ∈ l, x.id ∉ seen →
      ∃ m ∈ removeDupAux seen l, m.id = x.id := by
  induction l with
  | nil => intro seen x hx; exact absurd hx (List.not_mem_nil x)
  | cons m rest ih =>
      intro seen x hx hxs
      rw [removeDupAux]
      by_cases h : m.id ∈ seen
      · rw [if_pos h]
        rcases List.mem_cons.mp hx with rfl | hx
        · exact absurd h hxs
        · exact ih seen x hx hxs
      · rw [if_neg h]
        rcases List.mem_cons.mp hx with he | hx
        · exact ⟨m, List.mem_cons_self m _, by rw [he]⟩
        · by_cases hid : x.id = m.id
          · exact ⟨m, List.mem_cons_self m _, hid.symm⟩
          · have : x.id ∉ m.id :: seen := by
              simp only [List.mem_cons]
              exact fun hc => hc.elim hid hxs
            obtain ⟨m', hm', hm'id⟩ := ih (m.id :: seen) x hx this
            exact ⟨m', List.mem_cons_of_mem _ hm', hm'id⟩

/-- Auxiliary for C2: each kept movie is the first element of the input that
carries its id. -/
theorem removeDupAux_first (l : List Movie) :
    ∀ seen : List Int, ∀ m ∈ removeDupAux seen l,
      l.find? (fun x => x.id == m.id) = some m := by
  induction l with
  | nil => intro seen m hm; simp [removeDupAux] at hm
  | cons h rest ih =>
      intro seen m hm
      rw [removeDupAux] at hm
      by_cases hh : h.id ∈ seen
      · rw [if_pos hh] at hm
        have hne : m.id ≠ h.id := by
          intro he
          exact ((removeDupAux_nodup rest seen).2 m hm) (he ▸ hh)
        rw [List.find?_cons_of_neg _ (by simp only [beq_iff_eq]; exact fun hc => hne hc.symm)]
        exact ih seen m hm
      · rw [if_neg hh] at hm
        rcases List.mem_cons.mp hm with rfl | hm
        · exact List.find?_cons_of_pos _ (by simp)
        · have hns : m.id ∉ h.id :: seen := (removeDupAux_nodup rest (h.id :: seen)).2 m hm
          have hne : m.id ≠ h.id := fun he => hns (by simp [he])
          rw [List.find?_cons_of_neg _ (by simp only [beq_iff_eq]; exact fun hc => hne hc.symm)]
          exact ih (h.id :: seen) m hm

/-- Auxiliary for C2: on a list whose ids are fresh and pairwise distinct,
de-duplication is the identity. -/
theorem removeDupAux_of_nodup (l : List Movie) :
    ∀ seen : List Int, (l.map Movie.id).Nodup → (∀ m ∈ l, m.id ∉ seen) →
      removeDupAux seen l = l := by
  induction l with
  | nil => intro seen _ _; rfl
  | cons m rest ih =>
      intro seen hnd hfresh
      rw [removeDupAux, if_neg (hfresh m (List.mem_cons_self m rest))]
      simp only [List.map_cons, List.nodup_cons] at hnd
      congr 1
      refine ih (m.id :: seen) hnd.2 ?_
      intro x hx
      simp only [List.mem_cons]
      rintro (he | hs)
      · exact hnd.1 (he ▸ List.mem_map_of_mem Movie.id hx)
      · exact hfresh x (List.mem_cons_of_mem m hx) hs

/-- C2: `remove_duplicate_movies` keeps, for each unique id, the first-seen
instance in first-occurrence order (the output is a sublist of the input with
pairwise distinct ids covering every input id, and each kept movie is the
`find?`-first element with its id), and it is idempotent. -/
theorem dedup_first_seen_idempotent (l : List Movie) :
    (remove_duplicate_movies l).Sublist l ∧
    ((remove_duplicate_movies l).map Movie.id).Nodup ∧
    (∀ x ∈ l, ∃ m ∈ remove_duplicate_movies l, m.id = x.id) ∧
    (∀ m ∈ remove_duplicate_movies l, l.find? (fun x => x.id == m.id) = some m) ∧
    remove_duplicate_movies (remove_duplicate_movies l) = remove_duplicate_movies l := by
  refine ⟨removeDupAux_sublist l [], (removeDupAux_nodup l []).1, ?_, ?_, ?_⟩
  · intro x hx
    exact removeDupAux_covers l [] x hx (List.not_mem_nil x.id)
  · intro m hm
    exact removeDupAux_first l [] m hm
  · exact removeDupAux_of_nodup _ [] (removeDupAux_nodup l []).1
      (fun m _ => List.not_mem_nil m.id)

/-! ### The release-date validator (C3) -/

/-- C3 as frozen is false in both directions: `"2020-02-31"` has the claimed
`YYYY-MM-DD` granularity yet the validator raises (the day is out of range for
the month), while `"2020-5-7"` has none of the three granularities yet the
validator succeeds (`%Y-%m-%d` accepts one-digit months and days). -/
theorem release_date_claim_counterexample :
    hasClaimGranularity "2020-02-31" = true ∧
    (validate_release_date (some "2020-02-31")).isOk = false ∧
    hasClaimGranularity "2020-5-7" = false ∧
    (validate_release_date (some "2020-5-7")).isOk = true := by
  decide

/-- C3 amended: for every non-empty string the validator succeeds exactly when
the string parses as a real calendar date under `%Y-%m-%d` (4-digit year ≥ 1,
1–2-digit month and day), or has length 7 and parses under `%Y-%m`, or has
length 4 and parses under `%Y`; digit shape alone is neither sufficient nor
necessary. -/
theorem release_date_accepts_iff (s : String) (h : s ≠ "") :
    (validate_release_date (some s)).isOk = true ↔ acceptedDateSpec s = true := by
  simp only [validate_release_date, if_neg h, acceptedDateSpec]
  by_cases h1 : strptimeYmd s.data <;> by_cases h2 : s.length = 7 <;>
    by_cases h3 : s.length = 4 <;> by_cases h4 : strptimeYm s.data <;>
      by_cases h5 : strptimeY s.data <;>
        simp [h1, h2, h3, h4, h5, Except.isOk, Except.toBool]

/-- C3 amended, instantiated: `"2020-5-7"` is non-empty, and the validator's
verdict on it agrees with the amended acceptance predicate. -/
theorem release_date_accepts_iff_witness :
    (validate_release_date (some "2020-5-7")).isOk = true ↔
      acceptedDateSpec "2020-5-7" = true :=
  release_date_accepts_iff "2020-5-7" (by decide)

/-! ### Ranking determinism (C6) -/

/-- Transitivity of the descending-score comparator. -/
theorem scoreDescLe_trans (a b c : Movie × ℚ × Metrics)
    (hab : decide (b.2.1 ≤ a.2.1) = true) (hbc : decide (c.2.1 ≤ b.2.1) = true) :
    decide (c.2.1 ≤ a.2.1) = true := by
  simp only [decide_eq_true_eq] at *
  exact le_trans hbc hab

/-- Totality of the descending-score comparator. -/
theorem scoreDescLe_total (a b : Movie × ℚ × Metrics) :
    (decide (b.2.1 ≤ a.2.1) || decide (a.2.1 ≤ b.2.1)) = true := by
  simp only [Bool.or_eq_true, decide_eq_true_eq]
  exact le_total b.2.1 a.2.1

/-- C6: the ranking step is the `take k` of a stable descending sort: the
sorted list is a permutation of the scored candidates, pairwise descending in
score, equal scores keep their original candidate-pool order (the filter at
each score value is unchanged), and the output has at most `k` entries. -/
theorem ranking_sorted_stable_truncated (scored : List (Movie × ℚ × Metrics))
    (k : Nat) (hk : 0 < k) :
    rankScored scored k = (sortScoredDesc scored).take k ∧
    (rankScored scored k).length ≤ k ∧
    (sortScoredDesc scored).Perm scored ∧
    (sortScoredDesc scored).Pairwise (fun a b => b.2.1 ≤ a.2.1) ∧
    (∀ q : ℚ, (sortScoredDesc scored).filter (fun x => decide (x.2.1 = q)) =
      scored.filter (fun x => decide (x.2.1 = q))) := by
  refine ⟨rfl, ?_, List.mergeSort_perm scored _, ?_, ?_⟩
  · rw [rankScored, List.length_take]
    exact min_le_left _ _
  · have := @List.sorted_mergeSort _ (fun a b : Movie × ℚ × Metrics => decide (b.2.1 ≤ a.2.1))
      scoreDescLe_trans scoreDescLe_total scored
    exact this.imp (fun h => by simpa using h)
  · intro q
    set p : Movie × ℚ × Metrics → Bool := fun x => decide (x.2.1 = q) with hp
    have hall : ∀ x ∈ scored.filter p, p x = true := fun x hx => List.of_mem_filter hx
    have hpair : (scored.filter p).Pairwise (fun a b => decide (b.2.1 ≤ a.2.1) = true) := by
      refine List.pairwise_of_forall_mem_list ?_
      intro a ha b hb
      have ha' : a.2.1 = q := by simpa [hp] using List.of_mem_filter ha
      have hb' : b.2.1 = q := by simpa [hp] using List.of_mem_filter hb
      simp [ha', hb']
    have hsub : (scored.filter p).Sublist (sortScoredDesc scored) :=
      List.sublist_mergeSort scoreDescLe_trans scoreDescLe_total hpair
        (List.filter_sublist scored)
    have hsub2 : (scored.filter p).Sublist ((sortScoredDesc scored).filter p) := by
      have : (scored.filter p).filter p = scored.filter p :=
        List.filter_eq_self.mpr hall
      simpa [this] using hsub.filter p
    have hlen : ((sortScoredDesc scored).filter p).length = (scored.filter p).length :=
      ((List.mergeSort_perm scored _).filter p).length_eq
    exact (hsub2.eq_of_length hlen.symm).symm

/-- C6 instantiated at a concrete two-candidate scored pool and k = 1. -/
theorem ranking_sorted_stable_truncated_witness :
    rankScored sampleScoredPool 1 = (sortScoredDesc sampleScoredPool).take 1 ∧
    (rankScored sampleScoredPool 1).length ≤ 1 ∧
    (sortScoredDesc sampleScoredPool).Perm sampleScoredPool ∧
    (sortScoredDesc sampleScoredPool).Pairwise (fun a b => b.2.1 ≤ a.2.1) ∧
    (∀ q : ℚ, (sortScoredDesc sampleScoredPool).filter (fun x => decide (x.2.1 = q)) =
      sampleScoredPool.filter (fun x => decide (x.2.1 = q))) :=
  ranking_sorted_stable_truncated sampleScoredPool 1 (by norm_num)

/-! ### Fail-fast on an invalid strategy (C5) -/

/-- C5: for a strategy outside the four supported ones,
`find_similar_movies_for_each` raises the invalid-strategy `ValueError` and
leaves the engine state exactly as it was: no catalog request is issued and the
api-call counter is not even reset. -/
theorem invalid_strategy_fails_fast (client : TMDBClient) (cfg : EngineConfig)
    (top_movies : List Movie) (k : Nat) (strategy : String) (st : EngineState)
    (h : strategy ∉ (["tmdb_api", "same_year", "same_genre", "hybrid"] : List String)) :
    find_similar_movies_for_each client cfg top_movies k strategy st =
      (.error ("Invalid strategy: " ++ strategy ++
         ". Must be one of: tmdb_api, same_year, same_genre, hybrid"), st) := by
  rw [find_similar_movies_for_each, if_pos h]

/-- C5 instantiated at the strategy string "invalid" and a state with five
calls already counted. -/
theorem invalid_strategy_fails_fast_witness :
    find_similar_movies_for_each trivialClient {} [] 3 "invalid" ⟨5, []⟩ =
      (.error ("Invalid strategy: " ++ "invalid" ++
         ". Must be one of: tmdb_api, same_year, same_genre, hybrid"),
       (⟨5, []⟩ : EngineState)) :=
  invalid_strategy_fails_fast trivialClient {} [] 3 "invalid" ⟨5, []⟩ (by decide)

/-! ### The hybrid strategy's neighbour-year requests (C8) -/

/-- Splitting a `fetchResults` call into its state-independent value and its
state effect. -/
theorem fetchResults_eq (call : Except String (Option (List Value))) (req : Request)
    (handle : List Value → Option (List Value)) (st : EngineState) :
    (fetchResults call req handle st).1 = fetchValue call handle ∧
    (fetchResults call req handle st).2.requests = st.requests ++ [req] := by
  rcases call with e | (_ | l) <;>
    simp [fetchResults, fetchValue, EngineState.log, EngineState.bump]

/-- The value handed back by a take-`n` `fetchResults` holds at most `n`
movies. -/
theorem fetchValue_take_length (call : Except String (Option (List Value))) (n : Nat) :
    ((fetchValue call (fun movies_data => some (movies_data.take n))).getD []).length ≤ n := by
  rcases call with e | (_ | l) <;> simp [fetchValue, List.length_take]

/-- `yearRequests` distributes over appended traces. -/
theorem yearRequests_append (l1 l2 : List Request) :
    yearRequests (l1 ++ l2) = yearRequests l1 ++ yearRequests l2 :=
  List.filterMap_append l1 l2 _

/-- `yearRequests` recovers the years of a pure discover-by-year trace. -/
theorem yearRequests_map (l : List Int) :
    yearRequests (l.map Request.movies_by_year) = l := by
  induction l with
  | nil => rfl
  | cons a t ih =>
      simp only [List.map_cons, yearRequests, List.filterMap_cons] at *
      rw [ih]

/-- The TMDB-suggestions strategy issues exactly the similar and the
recommendations request, in this order, whatever the client answers. -/
theorem tmdb_api_trace (client : TMDBClient) (cfg : EngineConfig) (t : Movie)
    (st : EngineState) :
    (_get_candidates_from_tmdb_api client cfg t st).2.requests =
      st.requests ++ [Request.similar t.id, Request.recommendations t.id] := by
  rw [_get_candidates_from_tmdb_api]
  rcases hA : fetchResults (client.get_similar_movies t.id) (.similar t.id)
    (filterByVoteCount cfg) st with ⟨r1, s1⟩
  rcases hB : fetchResults (client.get_movie_recommendations t.id) (.recommendations t.id)
    (filterByVoteCount cfg) s1 with ⟨r2, s2⟩
  simp only [hA, hB]
  have e1 : s1.requests = st.requests ++ [Request.similar t.id] := by
    have := (fetchResults_eq (client.get_similar_movies t.id) (.similar t.id)
      (filterByVoteCount cfg) st).2
    rw [hA] at this
    exact this
  have e2 : s2.requests = s1.requests ++ [Request.recommendations t.id] := by
    have := (fetchResults_eq (client.get_movie_recommendations t.id) (.recommendations t.id)
      (filterByVoteCount cfg) s1).2
    rw [hB] at this
    exact this
  rw [e2, e1]
  simp

/-- The same-year strategy issues exactly one discover-by-year request when the
target's release year is truthy, and none otherwise. -/
theorem same_year_trace (client : TMDBClient) (cfg : EngineConfig) (t : Movie)
    (st : EngineState) :
    (_get_candidates_same_year client cfg t st).2.requests =
      (if optIntTruthy t.release_year then
        st.requests ++ [Request.movies_by_year ((t.release_year).getD 0)]
      else st.requests) := by
  by_cases h : optIntTruthy t.release_year
  · rw [if_pos h, _get_candidates_same_year, if_neg (by simp [h])]
    rcases hA : fetchResults (client.get_movies_by_year ((t.release_year).getD 0))
      (.movies_by_year ((t.release_year).getD 0))
      (fun movies_data => some (movies_data.take 50)) st with ⟨r, s1⟩
    simp only [hA]
    have := (fetchResults_eq (client.get_movies_by_year ((t.release_year).getD 0))
      (.movies_by_year ((t.release_year).getD 0))
      (fun movies_data => some (movies_data.take 50)) st).2
    rw [hA] at this
    exact this
  · rw [if_neg h, _get_candidates_same_year, if_pos (by simp [h])]

/-- The nearby-years loop issues exactly one discover-by-year request per
offset whose year lands in `(1900, 2025]`, in offset order. -/
theorem nearbyYearsFor_trace (client : TMDBClient) (cfg : EngineConfig) (y : Int)
    (offsets : List Int) :
    ∀ (acc : List Movie) (st : EngineState),
      (nearbyYearsFor client cfg y offsets acc st).2.requests =
        st.requests ++ ((offsets.map (fun o => y + o)).filter
          (fun n => decide (1900 < n ∧ n ≤ 2025))).map Request.movies_by_year := by
  induction offsets with
  | nil => intro acc st; simp [nearbyYearsFor]
  | cons o rest ih =>
      intro acc st
      rw [nearbyYearsFor]
      by_cases h : 1900 < y + o ∧ y + o ≤ 2025
      · rw [if_pos h]
        rcases hA : fetchResults (client.get_movies_by_year (y + o))
          (.movies_by_year (y + o)) (fun movies_data => some (movies_data.take 10)) st
          with ⟨r, s1⟩
        simp only [hA]
        rw [ih]
        have e1 : s1.requests = st.requests ++ [Request.movies_by_year (y + o)] := by
          have := (fetchResults_eq (client.get_movies_by_year (y + o))
            (.movies_by_year (y + o)) (fun movies_data => some (movies_data.take 10)) st).2
          rw [hA] at this
          exact this
        rw [e1]
        simp [List.filter_cons, h]
      · rw [if_neg h, ih acc st]
        simp [List.filter_cons, h]

/-- Each nearby-year request contributes at most 10 movies to the pool. -/
theorem nearbyYearsFor_length (client : TMDBClient) (cfg : EngineConfig) (y : Int)
    (offsets : List Int) :
    ∀ (acc : List Movie) (st : EngineState),
      (nearbyYearsFor client cfg y offsets acc st).1.length ≤
        acc.length + 10 * offsets.length := by
  induction offsets with
  | nil => intro acc st; simp [nearbyYearsFor]
  | cons o rest ih =>
      intro acc st
      rw [nearbyYearsFor]
      by_cases h : 1900 < y + o ∧ y + o ≤ 2025
      · rw [if_pos h]
        rcases hA : fetchResults (client.get_movies_by_year (y + o))
          (.movies_by_year (y + o)) (fun movies_data => some (movies_data.take 10)) st
          with ⟨r, s1⟩
        simp only [hA]
        have h10 : (validate_movie_list (r.getD [])).length ≤ 10 := by
          have hval := (fetchResults_eq (client.get_movies_by_year (y + o))
            (.movies_by_year (y + o)) (fun movies_data => some (movies_data.take 10)) st).1
          rw [hA] at hval
          have hval2 : r = fetchValue (client.get_movies_by_year (y + o))
              (fun movies_data => some (movies_data.take 10)) := hval
          calc (validate_movie_list (r.getD [])).length
              ≤ (r.getD []).length := List.length_filterMap_le _ _
            _ ≤ 10 := by
                rw [hval2]
                exact fetchValue_take_length _ 10
        calc (nearbyYearsFor client cfg y rest (acc ++ validate_movie_list (r.getD [])) s1).1.length
            ≤ (acc ++ validate_movie_list (r.getD [])).length + 10 * rest.length := ih _ _
          _ ≤ acc.length + 10 * (o :: rest).length := by
              rw [List.length_append]
              simp only [List.length_cons]
              omega
      · rw [if_neg h]
        calc (nearbyYearsFor client cfg y rest acc st).1.length
            ≤ acc.length + 10 * rest.length := ih acc st
          _ ≤ acc.length + 10 * (o :: rest).length := by
              simp only [List.length_cons]
              omega

/-- C8: for a target with known (truthy) release year `y`, the hybrid strategy
issues discover-by-year requests exactly for `y` itself and then for each of
the four neighbour years `y ± 1, y ± 2` that lies in `[1901, 2025]`, never for
a neighbour year outside that range, and each neighbour-year request
contributes at most 10 movies (at most 40 over the four). -/
theorem hybrid_neighbor_year_requests (client : TMDBClient) (cfg : EngineConfig)
    (target : Movie) (st : EngineState) (y : Int)
    (hy : target.release_year = some y) (hy0 : y ≠ 0) :
    yearRequests ((_get_candidates_hybrid client cfg target st).2.requests) =
      yearRequests st.requests ++ y ::
        (([-2, -1, 1, 2].map (fun o => y + o)).filter
          (fun n => decide (1900 < n ∧ n ≤ 2025))) ∧
    (∀ (acc : List Movie) (st1 : EngineState),
      (nearbyYearsFor client cfg y [-2, -1, 1, 2] acc st1).1.length ≤ acc.length + 40) := by
  constructor
  · have htruthy : optIntTruthy target.release_year = true := by
      rw [hy]; simpa [optIntTruthy] using hy0
    rw [_get_candidates_hybrid]
    rcases h1 : _get_candidates_from_tmdb_api client cfg target st with ⟨tmdb, st1⟩
    simp only [h1, htruthy, if_pos]
    rcases h2 : _get_candidates_same_year client cfg target st1 with ⟨sy, st2⟩
    simp only [h2]
    rcases h3 : nearbyYearsFor client cfg ((target.release_year).getD 0) [-2, -1, 1, 2]
        (tmdb ++ sy) st2 with ⟨nb, st3⟩
    simp only [hy, Option.getD_some] at h3
    show yearRequests st3.requests = _
    have e3 : st3.requests = st2.requests ++ ((([-2, -1, 1, 2] : List Int).map
        (fun o => y + o)).filter (fun n => decide (1900 < n ∧ n ≤ 2025))).map
          Request.movies_by_year := by
      have := nearbyYearsFor_trace client cfg y [-2, -1, 1, 2] (tmdb ++ sy) st2
      rw [h3] at this
      exact this
    have e2 : st2.requests = st1.requests ++ [Request.movies_by_year y] := by
      have := same_year_trace client cfg target st1
      rw [h2, hy] at this
      simpa [optIntTruthy, hy0] using this
    have e1 : st1.requests = st.requests ++
        [Request.similar target.id, Request.recommendations target.id] := by
      have := tmdb_api_trace client cfg target st
      rw [h1] at this
      exact this
    rw [e3, e2, e1, yearRequests_append, yearRequests_append, yearRequests_append,
      yearRequests_map]
    simp [yearRequests]
  · intro acc st1
    exact (nearbyYearsFor_length client cfg y [-2, -1, 1, 2] acc st1).trans (by norm_num)

/-- C8 instantiated: a target dated 2020-01-01 run against the trivial client
from a fresh state. -/
theorem hybrid_neighbor_year_requests_witness :
    yearRequests ((_get_candidates_hybrid trivialClient {} hybridWitnessTarget
        (EngineState.mk 0 [])).2.requests) =
      yearRequests (EngineState.mk 0 []).requests ++ (2020 : Int) ::
        (([-2, -1, 1, 2].map (fun o => (2020 : Int) + o)).filter
          (fun n => decide (1900 < n ∧ n ≤ 2025))) ∧
    (∀ (acc : List Movie) (st1 : EngineState),
      (nearbyYearsFor trivialClient {} 2020 [-2, -1, 1, 2] acc st1).1.length ≤
        acc.length + 40) :=
  hybrid_neighbor_year_requests trivialClient {} hybridWitnessTarget (EngineState.mk 0 [])
    2020 (by decide) (by norm_num)

/-! ### Per-target independence of the orchestrator loop (C4)

The engine state (counter and trace) never feeds back into any computed value,
so each target's outcome is a function of the client, the configuration and
the target alone; the lemmas below make that explicit, and the loop theorem
then shows the batch output is the ordered `filterMap` of per-target
outcomes. -/

/-- The TMDB-suggestions pool does not depend on the engine state. -/
theorem tmdb_api_fst_indep (client : TMDBClient) (cfg : EngineConfig) (t : Movie)
    (st st' : EngineState) :
    (_get_candidates_from_tmdb_api client cfg t st).1 =
      (_get_candidates_from_tmdb_api client cfg t st').1 := by
  rw [_get_candidates_from_tmdb_api, _get_candidates_from_tmdb_api]
  rcases hA : fetchResults (client.get_similar_movies t.id) (.similar t.id)
    (filterByVoteCount cfg) st with ⟨r1, s1⟩
  rcases hA' : fetchResults (client.get_similar_movies t.id) (.similar t.id)
    (filterByVoteCount cfg) st' with ⟨r1', s1'⟩
  simp only [hA, hA']
  rcases hB : fetchResults (client.get_movie_recommendations t.id) (.recommendations t.id)
    (filterByVoteCount cfg) s1 with ⟨r2, s2⟩
  rcases hB' : fetchResults (client.get_movie_recommendations t.id) (.recommendations t.id)
    (filterByVoteCount cfg) s1' with ⟨r2', s2'⟩
  simp only [hB, hB']
  have er1 : r1 = r1' := by
    have u := (fetchResults_eq (client.get_similar_movies t.id) (.similar t.id)
      (filterByVoteCount cfg) st).1
    have u' := (fetchResults_eq (client.get_similar_movies t.id) (.similar t.id)
      (filterByVoteCount cfg) st').1
    rw [hA] at u
    rw [hA'] at u'
    exact u.trans u'.symm
  have er2 : r2 = r2' := by
    have u := (fetchResults_eq (client.get_movie_recommendations t.id) (.recommendations t.id)
      (filterByVoteCount cfg) s1).1
    have u' := (fetchResults_eq (client.get_movie_recommendations t.id) (.recommendations t.id)
      (filterByVoteCount cfg) s1').1
    rw [hB] at u
    rw [hB'] at u'
    exact u.trans u'.symm
  rw [er1, er2]

/-- The same-year pool does not depend on the engine state. -/
theorem same_year_fst_indep (client : TMDBClient) (cfg : EngineConfig) (t : Movie)
    (st st' : EngineState) :
    (_get_candidates_same_year client cfg t st).1 =
      (_get_candidates_same_year client cfg t st').1 := by
  rw [_get_candidates_same_year, _get_candidates_same_year]
  by_cases h : optIntTruthy t.release_year
  · rw [if_neg (by simp [h]), if_neg (by simp [h])]
    rcases hA : fetchResults (client.get_movies_by_year ((t.release_year).getD 0))
      (.movies_by_year ((t.release_year).getD 0))
      (fun movies_data => some (movies_data.take 50)) st with ⟨r, s1⟩
    rcases hA' : fetchResults (client.get_movies_by_year ((t.release_year).getD 0))
      (.movies_by_year ((t.release_year).getD 0))
      (fun movies_data => some (movies_data.take 50)) st' with ⟨r', s1'⟩
    simp only [hA, hA']
    have er : r = r' := by
      have u := (fetchResults_eq (client.get_movies_by_year ((t.release_year).getD 0))
        (.movies_by_year ((t.release_year).getD 0))
        (fun movies_data => some (movies_data.take 50)) st).1
      have u' := (fetchResults_eq (client.get_movies_by_year ((t.release_year).getD 0))
        (.movies_by_year ((t.release_year).getD 0))
        (fun movies_data => some (movies_data.take 50)) st').1
      rw [hA] at u
      rw [hA'] at u'
      exact u.trans u'.symm
    rw [er]
  · rw [if_pos (by simp [h]), if_pos (by simp [h])]

/-- The per-genre discover loop's pool does not depend on the engine state. -/
theorem sameGenreFor_fst_indep (client : TMDBClient) (cfg : EngineConfig)
    (year : Option Int) (genres : List Genre) :
    ∀ (acc : List Value) (st st' : EngineState),
      (sameGenreFor client cfg year genres acc st).1 =
        (sameGenreFor client cfg year genres acc st').1 := by
  induction genres with
  | nil => intro acc st st'; rfl
  | cons g rest ih =>
      intro acc st st'
      rw [sameGenreFor, sameGenreFor]
      rcases hA : fetchResults (client.discover_movies year g.id) (.discover year g.id)
        (fun movies_data => some (movies_data.take 25)) st with ⟨r, s1⟩
      rcases hA' : fetchResults (client.discover_movies year g.id) (.discover year g.id)
        (fun movies_data => some (movies_data.take 25)) st' with ⟨r', s1'⟩
      simp only [hA, hA']
      have er : r = r' := by
        have u := (fetchResults_eq (client.discover_movies year g.id) (.discover year g.id)
          (fun movies_data => some (movies_data.take 25)) st).1
        have u' := (fetchResults_eq (client.discover_movies year g.id) (.discover year g.id)
          (fun movies_data => some (movies_data.take 25)) st').1
        rw [hA] at u
        rw [hA'] at u'
        exact u.trans u'.symm
      rw [er]
      exact ih (acc ++ r'.getD []) s1 s1'

/-- The same-genre pool does not depend on the engine state. -/
theorem same_genre_fst_indep (client : TMDBClient) (cfg : EngineConfig) (t : Movie)
    (st st' : EngineState) :
    (_get_candidates_same_genre client cfg t st).1 =
      (_get_candidates_same_genre client cfg t st').1 := by
  rw [_get_candidates_same_genre, _get_candidates_same_genre]
  by_cases h : optListTruthy t.genres
  · rw [if_neg (by simp [h]), if_neg (by simp [h])]
    rcases hA : sameGenreFor client cfg t.release_year ((t.genres.getD []).take 2) [] st
      with ⟨c, s1⟩
    rcases hA' : sameGenreFor client cfg t.release_year ((t.genres.getD []).take 2) [] st'
      with ⟨c', s1'⟩
    simp only [hA, hA']
    have ec : c = c' := by
      have u := sameGenreFor_fst_indep client cfg t.release_year ((t.genres.getD []).take 2)
        [] st st'
      rw [hA, hA'] at u
      exact u
    rw [ec]
  · rw [if_pos (by simp [h]), if_pos (by simp [h])]

/-- The nearby-years pool does not depend on the engine state. -/
theorem nearbyYearsFor_fst_indep (client : TMDBClient) (cfg : EngineConfig) (y : Int)
    (offsets : List Int) :
    ∀ (acc : List Movie) (st st' : EngineState),
      (nearbyYearsFor client cfg y offsets acc st).1 =
        (nearbyYearsFor client cfg y offsets acc st').1 := by
  induction offsets with
  | nil => intro acc st st'; rfl
  | cons o rest ih =>
      intro acc st st'
      rw [nearbyYearsFor, nearbyYearsFor]
      by_cases h : 1900 < y + o ∧ y + o ≤ 2025
      · rw [if_pos h, if_pos h]
        rcases hA : fetchResults (client.get_movies_by_year (y + o)) (.movies_by_year (y + o))
          (fun movies_data => some (movies_data.take 10)) st with ⟨r, s1⟩
        rcases hA' : fetchResults (client.get_movies_by_year (y + o)) (.movies_by_year (y + o))
          (fun movies_data => some (movies_data.take 10)) st' with ⟨r', s1'⟩
        simp only [hA, hA']
        have er : r = r' := by
          have u := (fetchResults_eq (client.get_movies_by_year (y + o))
            (.movies_by_year (y + o)) (fun movies_data => some (movies_data.take 10)) st).1
          have u' := (fetchResults_eq (client.get_movies_by_year (y + o))
            (.movies_by_year (y + o)) (fun movies_data => some (movies_data.take 10)) st').1
          rw [hA] at u
          rw [hA'] at u'
          exact u.trans u'.symm
        rw [er]
        exact ih (acc ++ validate_movie_list (r'.getD [])) s1 s1'
      · rw [if_neg h, if_neg h]
        exact ih acc st st'

/-- The hybrid pool does not depend on the engine state. -/
theorem hybrid_fst_indep (client : TMDBClient) (cfg : EngineConfig) (t : Movie)
    (st st' : EngineState) :
    (_get_candidates_hybrid client cfg t st).1 =
      (_get_candidates_hybrid client cfg t st').1 := by
  rw [_get_candidates_hybrid, _get_candidates_hybrid]
  rcases h1 : _get_candidates_from_tmdb_api client cfg t st with ⟨tm, s1⟩
  rcases h1' : _get_candidates_from_tmdb_api client cfg t st' with ⟨tm', s1'⟩
  simp only [h1, h1']
  have etm : tm = tm' := by
    have u := tmdb_api_fst_indep client cfg t st st'
    rw [h1, h1'] at u
    exact u
  by_cases h : optIntTruthy t.release_year
  · rw [if_pos h, if_pos h]
    rcases h2 : _get_candidates_same_year client cfg t s1 with ⟨sy, s2⟩
    rcases h2' : _get_candidates_same_year client cfg t s1' with ⟨sy', s2'⟩
    simp only [h2, h2']
    have esy : sy = sy' := by
      have u := same_year_fst_indep client cfg t s1 s1'
      rw [h2, h2'] at u
      exact u
    rcases h3 : nearbyYearsFor client cfg ((t.release_year).getD 0) [-2, -1, 1, 2]
      (tm ++ sy) s2 with ⟨nb, s3⟩
    rcases h3' : nearbyYearsFor client cfg ((t.release_year).getD 0) [-2, -1, 1, 2]
      (tm' ++ sy') s2' with ⟨nb', s3'⟩
    simp only [h3, h3']
    have enb : nb = nb' := by
      have u := nearbyYearsFor_fst_indep client cfg ((t.release_year).getD 0) [-2, -1, 1, 2]
        (tm ++ sy) s2 s2'
      rw [h3] at u
      rw [etm, esy] at u
      rw [h3'] at u
      exact u
    rw [enb]
  · rw [if_neg h, if_neg h]
    rw [etm]

/-- The enrichment of one candidate does not depend on the engine state. -/
theorem enrichOne_fst_indep (client : TMDBClient) (cand : Movie) (st st' : EngineState) :
    (enrichOne client cand st).1 = (enrichOne client cand st').1 := by
  rw [enrichOne, enrichOne]
  rcases h1 : client.get_movie_details cand.id with e1 | v1
  · rfl
  · rcases v1 with _ | dd
    · rfl
    · dsimp only
      by_cases he : dd.isEmpty
      · rw [if_pos he, if_pos he]
      · rw [if_neg he, if_neg he]
        rcases h2 : client.get_movie_keywords cand.id with e2 | k2
        · rfl
        · dsimp only
          rcases h3 : client.get_movie_credits cand.id with e3 | c3
          · rfl
          · dsimp only
            rcases h4 : applyDirectorStep c3 (applyKeywordsStep k2 dd) with e4 | dd2
            · rfl
            · dsimp only
              rcases h5 : movie_from_tmdb_response dd2 with e5 | m5 <;> rfl

/-- The enrichment of a candidate list does not depend on the engine state. -/
theorem enrich_fst_indep (client : TMDBClient) (cfg : EngineConfig) (candidates : List Movie) :
    ∀ (st st' : EngineState),
      (_enrich_candidates_if_needed client cfg candidates st).1 =
        (_enrich_candidates_if_needed client cfg candidates st').1 := by
  induction candidates with
  | nil => intro st st'; rfl
  | cons c rest ih =>
      intro st st'
      rw [_enrich_candidates_if_needed, _enrich_candidates_if_needed]
      by_cases h : ¬ (¬ optListTruthy c.genres ∨ ¬ optListTruthy c.keywords ∨
          c.director = none)
      · rw [if_pos h, if_pos h]
        rcases hA : _enrich_candidates_if_needed client cfg rest st with ⟨tl, s1⟩
        rcases hA' : _enrich_candidates_if_needed client cfg rest st' with ⟨tl', s1'⟩
        simp only [hA, hA']
        have etl : tl = tl' := by
          have u := ih st st'
          rw [hA, hA'] at u
          exact u
        rw [etl]
      · rw [if_neg h, if_neg h]
        rcases hE : enrichOne client c st with ⟨e, s1⟩
        rcases hE' : enrichOne client c st' with ⟨e', s1'⟩
        simp only [hE, hE']
        have ee : e = e' := by
          have u := enrichOne_fst_indep client c st st'
          rw [hE, hE'] at u
          exact u
        rcases hA : _enrich_candidates_if_needed client cfg rest s1 with ⟨tl, s2⟩
        rcases hA' : _enrich_candidates_if_needed client cfg rest s1' with ⟨tl', s2'⟩
        simp only [hA, hA']
        have etl : tl = tl' := by
          have u := ih s1 s1'
          rw [hA, hA'] at u
          exact u
        rw [ee, etl]

/-- The scored-and-ranked list does not depend on the engine state. -/
theorem rank_fst_indep (client : TMDBClient) (cfg : EngineConfig) (t : Movie)
    (candidates : List Movie) (top_n : Nat) (st st' : EngineState) :
    (_calculate_similarity_and_rank client cfg t candidates top_n st).1 =
      (_calculate_similarity_and_rank client cfg t candidates top_n st').1 := by
  rw [_calculate_similarity_and_rank, _calculate_similarity_and_rank]
  by_cases h : candidates.isEmpty
  · rw [if_pos h, if_pos h]
  · rw [if_neg h, if_neg h]
    rcases hA : _enrich_candidates_if_needed client cfg candidates st with ⟨en, s1⟩
    rcases hA' : _enrich_candidates_if_needed client cfg candidates st' with ⟨en', s1'⟩
    simp only [hA, hA']
    have een : en = en' := by
      have u := enrich_fst_indep client cfg candidates st st'
      rw [hA, hA'] at u
      exact u
    rw [een]

/-- The candidate pool (or the raised invalid-strategy error) does not depend
on the engine state. -/
theorem pool_fst_indep (client : TMDBClient) (cfg : EngineConfig) (t : Movie)
    (strategy : String) (st st' : EngineState) :
    (_get_candidate_pool client cfg t strategy st).1 =
      (_get_candidate_pool client cfg t strategy st').1 := by
  rw [_get_candidate_pool, _get_candidate_pool]
  by_cases h1 : strategy = "tmdb_api"
  · rw [if_pos h1, if_pos h1]
    rcases hA : _get_candidates_from_tmdb_api client cfg t st with ⟨c, s1⟩
    rcases hA' : _get_candidates_from_tmdb_api client cfg t st' with ⟨c', s1'⟩
    simp only [hA, hA']
    have := tmdb_api_fst_indep client cfg t st st'
    rw [hA, hA'] at this
    exact congrArg Except.ok this
  · rw [if_neg h1, if_neg h1]
    by_cases h2 : strategy = "same_year"
    · rw [if_pos h2, if_pos h2]
      rcases hA : _get_candidates_same_year client cfg t st with ⟨c, s1⟩
      rcases hA' : _get_candidates_same_year client cfg t st' with ⟨c', s1'⟩
      simp only [hA, hA']
      have := same_year_fst_indep client cfg t st st'
      rw [hA, hA'] at this
      exact congrArg Except.ok this
    · rw [if_neg h2, if_neg h2]
      by_cases h3 : strategy = "same_genre"
      · rw [if_pos h3, if_pos h3]
        rcases hA : _get_candidates_same_genre client cfg t st with ⟨c, s1⟩
        rcases hA' : _get_candidates_same_genre client cfg t st' with ⟨c', s1'⟩
        simp only [hA, hA']
        have := same_genre_fst_indep client cfg t st st'
        rw [hA, hA'] at this
        exact congrArg Except.ok this
      · rw [if_neg h3, if_neg h3]
        by_cases h4 : strategy = "hybrid"
        · rw [if_pos h4, if_pos h4]
          rcases hA : _get_candidates_hybrid client cfg t st with ⟨c, s1⟩
          rcases hA' : _get_candidates_hybrid client cfg t st' with ⟨c', s1'⟩
          simp only [hA, hA']
          have := hybrid_fst_indep client cfg t st st'
          rw [hA, hA'] at this
          exact congrArg Except.ok this
        · rw [if_neg h4, if_neg h4]

/-- The loop over targets computes exactly the ordered `filterMap` of the
per-target outcomes. -/
theorem processLoop_filterMap (client : TMDBClient) (cfg : EngineConfig)
    (strategy : String) (k : Nat) (targets : List Movie) :
    ∀ st : EngineState,
      (processLoop client cfg strategy k targets st).1 =
        targets.filterMap (processTargetPure client cfg strategy k) := by
  induction targets with
  | nil => intro st; rfl
  | cons t rest ih =>
      intro st
      rw [processLoop, List.filterMap_cons, processTargetPure]
      rcases hp : _get_candidate_pool client cfg t strategy st with ⟨res, st1⟩
      rcases hp0 : _get_candidate_pool client cfg t strategy ⟨0, []⟩ with ⟨res0, st10⟩
      have eres : res = res0 := by
        have u := pool_fst_indep client cfg t strategy st ⟨0, []⟩
        rw [hp, hp0] at u
        exact u
      subst eres
      rcases res with e | candidates <;> dsimp only
      · exact ih st1
      · by_cases hc : candidates.isEmpty
        · rw [if_pos hc, if_pos hc]
          dsimp only
          exact ih st1
        · rw [if_neg hc, if_neg hc]
          rcases hr : _calculate_similarity_and_rank client cfg t candidates k st1
            with ⟨sim, st2⟩
          rcases hr0 : _calculate_similarity_and_rank client cfg t candidates k st10
            with ⟨sim0, st20⟩
          have esim : sim = sim0 := by
            have u := rank_fst_indep client cfg t candidates k st1 st10
            rw [hr, hr0] at u
            exact u
          subst esim
          dsimp only
          by_cases hs : sim.isEmpty
          · rw [if_pos hs, if_pos hs]
            dsimp only
            exact ih st2
          · rw [if_neg hs, if_neg hs]
            rcases hL : processLoop client cfg strategy k rest st2 with ⟨tl, st3⟩
            dsimp only
            have := ih st2
            rw [hL] at this
            simp only [List.cons.injEq, true_and]
            exact this

/-- C4: for a valid strategy, `find_similar_movies_for_each` never aborts: it
returns `.ok` of the ordered `filterMap` of per-target outcomes, so a target
whose pool raises, is empty, or ranks to nothing is simply absent, every other
target is still processed, and the output preserves the input order. -/
theorem batch_skips_failed_targets (client : TMDBClient) (cfg : EngineConfig)
    (top_movies : List Movie) (k : Nat) (strategy : String) (st : EngineState)
    (hs : strategy ∈ (["tmdb_api", "same_year", "same_genre", "hybrid"] : List String)) :
    (find_similar_movies_for_each client cfg top_movies k strategy st).1 =
      .ok (top_movies.filterMap (processTargetPure client cfg strategy k)) := by
  rw [find_similar_movies_for_each, if_neg (by simp [hs])]
  rcases hL : processLoop client cfg strategy k top_movies
    { st with api_calls_made := 0 } with ⟨res, st1⟩
  simp only [hL]
  have := processLoop_filterMap client cfg strategy k top_movies
    { st with api_calls_made := 0 }
  rw [hL] at this
  exact congrArg Except.ok this

/-- C4 instantiated: one target against the trivial client (empty candidate
pool, so it is skipped and the batch returns an empty list). -/
theorem batch_skips_failed_targets_witness :
    (find_similar_movies_for_each trivialClient {} [hybridWitnessTarget] 3 "hybrid"
        (EngineState.mk 0 [])).1 =
      .ok ([hybridWitnessTarget].filterMap (processTargetPure trivialClient {} "hybrid" 3)) :=
  batch_skips_failed_targets trivialClient {} [hybridWitnessTarget] 3 "hybrid"
    (EngineState.mk 0 []) (by decide)

/-! ### The normalizer never mutates its input (C10) -/

/-- Every branch of the post-keyword steps hands the caller's dict back
untouched. -/
theorem movieFromResponseRest_preserves (data movie_data : Dict)
    (kw : Option (List Keyword)) :
    (movieFromResponseRest data movie_data kw).2.1 = data := by
  rw [movieFromResponseRest]
  repeat' split
  all_goals rfl

/-- C10: `movie_from_tmdb_response` never mutates the caller's dictionary —
whether it returns a `Movie` or raises, the input dict comes back exactly as it
went in, because the keyword and genre reshaping happens on the internal copy;
and the copy genuinely diverges on some inputs (so the preservation is not
vacuous). -/
theorem normalizer_preserves_input (data : Dict) :
    (movie_from_tmdb_response_run data).2.1 = data ∧
    ∃ d : Dict, (movie_from_tmdb_response_run d).2.2 ≠ d := by
  constructor
  · rw [movie_from_tmdb_response_run]
    split
    · dsimp only
      split
      · rfl
      · apply movieFromResponseRest_preserves
    · apply movieFromResponseRest_preserves
  · refine ⟨[("keywords", Value.list [])], ?_⟩
    have hrun : (movie_from_tmdb_response_run [("keywords", Value.list [])]).2.2 =
        ([] : Dict) := rfl
    rw [hrun]
    exact fun h => List.noConfusion h

end MovieRec
